import Mathlib

/-
Verification of the multicomponent transport core (MultiTransport.cpp).

The C++ class MultiTransport is embedded shallowly over the rationals:

* `TState` holds the mutable members of the class (temperature-tier caches,
  the composition-tier mole-fraction cache, the solve-tier vectors a and b,
  the L matrix storage, the validity flags) together with the state of the
  owning thermodynamic phase (`Phase`).
* `TransportEnv` holds the data fixed at `init()` (species count, molecular
  weights, polynomial coefficient tables, collision parameters) together
  with rational-valued stand-ins for the libm functions (log, sqrt, exp)
  and for the external dense linear algebra (LAPACK dgesv/dgetrf/dgetrs,
  `invert`, GMRES) and the L-matrix block assembly of L_matrix.h, none of
  which are part of the sources under verification.
* Each `_update_*` method of the class is translated statement by
  statement; the lazy updater machinery of the thermodynamic phase
  (installUpdater_T / update_T), which lives outside the translated
  sources, is modelled from the spec as an epoch check per updater.
* Public queries are functions `TState → Except CtError result × TState`;
  `CtError.canteraError` models `throw CanteraError(...)` and
  `CtError.processExit` models `exit(1)`.
* `solveCount` is an instrumentation counter (not a C++ member): it is
  incremented exactly when the assembly-and-solve stage of
  `solveLMatrixEquation` executes, so that cache-hit properties are
  observable.
-/

namespace Cantera

/-- Mole fractions below MIN_X are set to MIN_X when computing transport
properties (`#define MIN_X 1.e-20`). -/
def MIN_X : ℚ := 1 / 100000000000000000000

/-- Outcome of a failed query. `canteraError proc msg` models
`throw CanteraError(proc, msg)`; `processExit code` models a call to
`exit(code)`, which terminates the process instead of raising an
exception that a caller could receive. -/
inductive CtError where
  | canteraError (proc msg : String) : CtError
  | processExit (code : ℕ) : CtError

/-- True exactly on results that carry a raised (propagating) CanteraError. -/
def raisesCanteraError {α : Type} : Except CtError α → Bool
  | Except.error (CtError.canteraError _ _) => true
  | _ => false

/-- True exactly on results that carry a process termination. -/
def isProcessExit {α : Type} (code : ℕ) : Except CtError α → Bool
  | Except.error (CtError.processExit c) => c == code
  | _ => false

/-- True exactly on successful results. -/
def exceptIsOk {α : Type} : Except CtError α → Bool
  | Except.ok _ => true
  | _ => false

/-- State of the thermodynamic phase collaborator, as consumed by the
transport model (spec section 6: temperature, pressure, mole and mass
fractions, density, mean molecular weight, reference-state internal heat
capacities). `tempEpoch` and `compEpoch` count the temperature and
composition changes applied to the phase; they drive the lazy updater
machinery. -/
structure Phase where
  temperature : ℚ
  pressure : ℚ
  density : ℚ
  meanMolecularWeight : ℚ
  moleFractions : ℕ → ℚ
  massFractions : ℕ → ℚ
  cp_R : ℕ → ℚ
  tempEpoch : ℕ
  compEpoch : ℕ

/-- Mutable members of class MultiTransport, plus the phase state and the
`solveCount` instrumentation counter. Vectors are total functions on ℕ;
only indices below the species count (or 3 times it) are ever read. -/
structure TState where
  phase : Phase
  temp : ℚ
  logt : ℚ
  kbt : ℚ
  sqrt_t : ℚ
  t32 : ℚ
  sqrt_kbt : ℚ
  polytempvec : ℕ → ℚ
  visc : ℕ → ℚ
  phi : ℕ → ℕ → ℚ
  bdiff : ℕ → ℕ → ℚ
  om22 : ℕ → ℕ → ℚ
  astar : ℕ → ℕ → ℚ
  bstar : ℕ → ℕ → ℚ
  cstar : ℕ → ℕ → ℚ
  rotrelax : ℕ → ℚ
  cinternal : ℕ → ℚ
  molefracs : ℕ → ℚ
  a : ℕ → ℚ
  b : ℕ → ℚ
  Lmatrix : ℕ → ℕ → ℚ
  visc_ok : Bool
  spvisc_ok : Bool
  diff_ok : Bool
  abc_ok : Bool
  l0000_ok : Bool
  lmatrix_soln_ok : Bool
  lastT_transport : Option ℕ
  lastT_spvisc : Option ℕ
  lastT_visc : Option ℕ
  lastT_diff : Option ℕ
  lastT_thermal : Option ℕ
  lastC_transport : Option ℕ
  solveCount : ℕ

/-- Arguments actually read by the nine eval_L.... block assembly routines
of L_matrix.h: mole fractions and the temperature-tier caches (the
molecular weights and collision parameters are fixed in the environment
and may be captured by the environment's assembly function). -/
structure LInputs where
  temp : ℚ
  molefracs : ℕ → ℚ
  visc : ℕ → ℚ
  rotrelax : ℕ → ℚ
  cinternal : ℕ → ℚ
  bdiff : ℕ → ℕ → ℚ
  om22 : ℕ → ℕ → ℚ
  astar : ℕ → ℕ → ℚ
  bstar : ℕ → ℕ → ℚ
  cstar : ℕ → ℕ → ℚ

/-- Extract from the state the quantities the L-matrix assembly reads. -/
def lInputs (s : TState) : LInputs :=
  { temp := s.temp
    molefracs := s.molefracs
    visc := s.visc
    rotrelax := s.rotrelax
    cinternal := s.cinternal
    bdiff := s.bdiff
    om22 := s.om22
    astar := s.astar
    bstar := s.bstar
    cstar := s.cstar }

/-- Data fixed at `init()` (copied from TransportParams), together with
models of the external collaborators: `qlog`, `qsqrt`, `qexp` stand in for
the libm functions on doubles; `lsolve` models the dense direct solve
(ct_dgesv via `solve`, returning none when the factorization reports a
singular matrix); `lsolveFactor` models dgetrf followed by dgetrs reuse
(none when dgetrf fails); `linvert` models `invert` of DenseMatrix.h;
`gmresSolve` models the iterative solver with its warm start argument;
`evalLmatrix` and `evalL0000` model the block assembly routines of
L_matrix.h (not part of the translated sources). `log_eps_k`,
`sqrt_eps_k` and `frot_298` are the pairwise and per-species constants
precomputed in `init()`. -/
structure TransportEnv where
  nsp : ℕ
  mw : ℕ → ℚ
  hasInternalModes : ℕ → Bool
  visccoeffs : ℕ → ℕ → ℚ
  diffcoeffs : ℕ → ℕ → ℚ
  om22_poly : ℕ → ℕ → ℚ
  astar_poly : ℕ → ℕ → ℚ
  bstar_poly : ℕ → ℕ → ℚ
  cstar_poly : ℕ → ℕ → ℚ
  poly : ℕ → ℕ → ℕ
  log_eps_k : ℕ → ℕ → ℚ
  sqrt_eps_k : ℕ → ℚ
  frot_298 : ℕ → ℚ
  eps : ℕ → ℚ
  zrot : ℕ → ℚ
  ckMode : Bool
  gmres : Bool
  qlog : ℚ → ℚ
  qsqrt : ℚ → ℚ
  qexp : ℚ → ℚ
  boltzmann : ℚ
  gasConstant : ℚ
  sqrtEight : ℚ
  qpi : ℚ
  qsqrtPi : ℚ
  lsolve : (ℕ → ℕ → ℚ) → ℕ → (ℕ → ℚ) → Option (ℕ → ℚ)
  lsolveFactor : (ℕ → ℕ → ℚ) → ℕ → Option ((ℕ → ℚ) → (ℕ → ℚ))
  linvert : (ℕ → ℕ → ℚ) → ℕ → Option (ℕ → ℕ → ℚ)
  gmresSolve : (ℕ → ℕ → ℚ) → ℕ → (ℕ → ℚ) → (ℕ → ℚ) → (ℕ → ℚ)
  evalLmatrix : LInputs → ℕ → ℕ → ℚ
  evalL0000 : LInputs → ℕ → ℕ → ℚ

/-- Modelled from the spec: `pressure_ig()` (declared in MultiTransport.h,
outside the translated sources) returns the current pressure of the
ideal-gas phase; spec section 6 lists the current pressure among the
quantities consumed from the thermodynamic-phase collaborator. -/
def pressure_ig (s : TState) : ℚ := s.phase.pressure

/-- Modelled from the spec: `dot4` of utilities.h (outside the translated
sources), the inner product of the first four entries, used with the
log-temperature power vector for CK_Mode polynomial fits. -/
def dot4 (v c : ℕ → ℚ) : ℚ := v 0 * c 0 + v 1 * c 1 + v 2 * c 2 + v 3 * c 3

/-- Modelled from the spec: `dot5` of utilities.h (outside the translated
sources), the inner product of the first five entries. -/
def dot5 (v c : ℕ → ℚ) : ℚ := dot4 v c + v 4 * c 4

/-- Modelled from the spec: `poly6` of utilities.h (outside the translated
sources), Horner evaluation of the 6-term collision-integral fit
(spec section 4.2). -/
def poly6 (z : ℚ) (c : ℕ → ℚ) : ℚ :=
  ((((((c 6) * z + c 5) * z + c 4) * z + c 3) * z + c 2) * z + c 1) * z + c 0

/-- Modelled from the spec: `poly8` of utilities.h (outside the translated
sources), Horner evaluation of the 8-term collision-integral fit
(spec section 4.2). -/
def poly8 (z : ℚ) (c : ℕ → ℚ) : ℚ :=
  ((((((((c 8) * z + c 7) * z + c 6) * z + c 5) * z + c 4) * z + c 3) * z
    + c 2) * z + c 1) * z + c 0

/-- The Parker temperature correction to the rotational collision number
(helper `Frot` of MultiTransport.cpp), with rational stand-ins for the
double constants Pi and SqrtPi. -/
def Frot (env : TransportEnv) (tr sqtr : ℚ) : ℚ :=
  1 + (1/2 * env.qsqrtPi * env.qpi) * sqtr + (1/4 * env.qpi * env.qpi + 2) * tr
    + (env.qsqrtPi * env.qpi) * sqtr * tr

/-- Position of the pair (i, j), i ≤ j, in the enumeration used by the
`ic` counter of the loops `for i; for j = i..nsp` over the upper
triangle. -/
def pairIndex (n i j : ℕ) : ℕ := i * n - i * (i - 1) / 2 + (j - i)

/-- Translation of `MultiTransport::_update_transport_T`: refresh the
temperature, its derived powers and the log-temperature power vector, and
invalidate every quantity that depends on temperature. -/
def _update_transport_T (env : TransportEnv) (s : TState) : TState :=
  let T := s.phase.temperature
  let lt := env.qlog T
  { s with
    temp := T
    logt := lt
    kbt := env.boltzmann * T
    sqrt_t := env.qsqrt T
    t32 := T * env.qsqrt T
    sqrt_kbt := env.qsqrt (env.boltzmann * T)
    polytempvec := fun i =>
      if i = 0 then 1 else if i = 1 then lt else if i = 2 then lt * lt
      else if i = 3 then lt * lt * lt else if i = 4 then lt * lt * lt * lt
      else 0
    visc_ok := false
    spvisc_ok := false
    diff_ok := false
    abc_ok := false
    lmatrix_soln_ok := false
    l0000_ok := false }

/-- Modelled from the spec: the phase's updater machinery
(`m_thermo->update_T(m_update_transport_T)`; installUpdater_T and
update_T are declared outside the translated sources). Spec section 4.1:
a derived quantity is recomputed only when first requested after an
invalidating change; each installed updater runs exactly when the phase
temperature state changed since that updater last ran. -/
def updateTransport_T (env : TransportEnv) (s : TState) : TState :=
  if s.lastT_transport = some s.phase.tempEpoch then s
  else { _update_transport_T env s with lastT_transport := some s.phase.tempEpoch }

/-- Translation of `MultiTransport::_update_transport_C`: mark the
concentration-dependent quantities stale and refresh the local
mole-fraction array, clamping each entry from below to MIN_X. -/
def _update_transport_C (_env : TransportEnv) (s : TState) : TState :=
  { s with
    l0000_ok := false
    lmatrix_soln_ok := false
    molefracs := fun k => max MIN_X (s.phase.moleFractions k) }

/-- Modelled from the spec: the phase's composition updater machinery
(`m_thermo->update_C(...)`, outside the translated sources); the installed
composition updater runs exactly when the phase composition changed since
it last ran (spec section 4.1). -/
def updateTransport_C (env : TransportEnv) (s : TState) : TState :=
  if s.lastC_transport = some s.phase.compEpoch then s
  else { _update_transport_C env s with lastC_transport := some s.phase.compEpoch }

/-- Value assigned by `_update_diff_T` to the binary diffusion pair
(min i j, max i j): the polynomial fit at unit pressure, in either
CK_Mode (exponential of a dot4 fit) or the default mode (T^1.5 times a
dot5 fit). -/
def bdiffFitVal (env : TransportEnv) (s : TState) (i j : ℕ) : ℚ :=
  let ic := pairIndex env.nsp (min i j) (max i j)
  if env.ckMode then env.qexp (dot4 s.polytempvec (env.diffcoeffs ic))
  else s.temp * s.sqrt_t * dot5 s.polytempvec (env.diffcoeffs ic)

/-- Translation of `MultiTransport::_update_diff_T`: after refreshing the
transport temperature quantities, fill both triangles of `m_bdiff` from
the per-pair polynomial fits (the loops write (i,j) and mirror to (j,i)
for i ≤ j) and set `m_diff_ok`. -/
def _update_diff_T (env : TransportEnv) (s0 : TState) : TState :=
  let s := updateTransport_T env s0
  { s with
    diff_ok := true
    bdiff := fun i j =>
      if i < env.nsp ∧ j < env.nsp then bdiffFitVal env s i j else s.bdiff i j }

/-- Gate for `_update_diff_T` through the phase updater machinery
(modelled from the spec, section 4.1). -/
def updateDiff_T (env : TransportEnv) (s : TState) : TState :=
  if s.lastT_diff = some s.phase.tempEpoch then s
  else { _update_diff_T env s with lastT_diff := some s.phase.tempEpoch }

/-- Translation of `MultiTransport::_update_species_visc_T`: refresh the
pure-species viscosities from the per-species polynomial fits. -/
def _update_species_visc_T (env : TransportEnv) (s0 : TState) : TState :=
  let s := updateTransport_T env s0
  { s with
    spvisc_ok := true
    visc := fun k =>
      if k < env.nsp then
        (if env.ckMode then env.qexp (dot4 s.polytempvec (env.visccoeffs k))
         else s.sqrt_t * dot5 s.polytempvec (env.visccoeffs k))
      else s.visc k }

/-- Gate for `_update_species_visc_T` through the phase updater machinery
(modelled from the spec, section 4.1). -/
def updateSpeciesViscosities_T (env : TransportEnv) (s : TState) : TState :=
  if s.lastT_spvisc = some s.phase.tempEpoch then s
  else { _update_species_visc_T env s with lastT_spvisc := some s.phase.tempEpoch }

/-- The directly computed entry phi(k,j) for k in the lower triangle of the
Wilke-Mason weighting matrix (Eq. 9-5.15 of Reid, Prausnitz and Poling). -/
def phiDirect (env : TransportEnv) (s : TState) (k j : ℕ) : ℚ :=
  let vratiokj := s.visc k / s.visc j
  let wratiojk := env.mw j / env.mw k
  let factor1 := 1 + env.qsqrt (vratiokj * env.qsqrt wratiojk)
  factor1 * factor1 / (env.sqrtEight * env.qsqrt (1 + env.mw k / env.mw j))

/-- Translation of `MultiTransport::_update_visc_T`: refresh the species
viscosities and the weighting matrix `m_phi` (lower triangle directly,
upper triangle by the reciprocal relation). -/
def _update_visc_T (env : TransportEnv) (s0 : TState) : TState :=
  let s := updateSpeciesViscosities_T env s0
  { s with
    visc_ok := true
    phi := fun p q =>
      if p < env.nsp ∧ q < env.nsp then
        (if q ≤ p then phiDirect env s p q
         else phiDirect env s q p / (s.visc q / s.visc p * (env.mw p / env.mw q)))
      else s.phi p q }

/-- Gate for `_update_visc_T` through the phase updater machinery
(modelled from the spec, section 4.1). -/
def updateViscosity_T (env : TransportEnv) (s : TState) : TState :=
  if s.lastT_visc = some s.phase.tempEpoch then s
  else { _update_visc_T env s with lastT_visc := some s.phase.tempEpoch }

/-- The collision-integral star value assigned to the pair (i, j) by
`_update_thermal_T`: the polynomial at z = log T - log(eps_ij/kB) with the
fit selected for the pair, written symmetrically from the upper-triangle
loop. -/
def starVal (env : TransportEnv) (s : TState) (tbl : ℕ → ℕ → ℚ) (i j : ℕ) : ℚ :=
  let i2 := min i j
  let j2 := max i j
  let z := s.logt - env.log_eps_k i2 j2
  let ipoly := env.poly i2 j2
  if env.ckMode then poly6 z (tbl ipoly) else poly8 z (tbl ipoly)

/-- Translation of `MultiTransport::_update_thermal_T`: refresh species
viscosities and binary diffusion coefficients, evaluate the
Omega*(2,2)/A*/B*/C* matrices, the rotational relaxation rates, overwrite
the diagonal of `m_bdiff` with the self-diffusion estimate
1.2 R T eta_k astar(k,k) / M_k, and recompute the internal heat
capacities cp_R - 2.5. -/
def _update_thermal_T (env : TransportEnv) (s0 : TState) : TState :=
  let s1 := updateSpeciesViscosities_T env s0
  let s := updateDiff_T env s1
  let astarn := fun i j =>
    if i < env.nsp ∧ j < env.nsp then starVal env s env.astar_poly i j else s.astar i j
  { s with
    om22 := fun i j =>
      if i < env.nsp ∧ j < env.nsp then starVal env s env.om22_poly i j else s.om22 i j
    astar := astarn
    bstar := fun i j =>
      if i < env.nsp ∧ j < env.nsp then starVal env s env.bstar_poly i j else s.bstar i j
    cstar := fun i j =>
      if i < env.nsp ∧ j < env.nsp then starVal env s env.cstar_poly i j else s.cstar i j
    abc_ok := true
    rotrelax := fun k =>
      if k < env.nsp then
        max 1 (env.zrot k) * env.frot_298 k
          / Frot env (env.eps k / s.kbt) (env.sqrt_eps_k k / s.sqrt_t)
      else s.rotrelax k
    bdiff := fun i j =>
      if i < env.nsp ∧ i = j then
        6/5 * env.gasConstant * s.temp * s.visc i * astarn i i / env.mw i
      else s.bdiff i j
    cinternal := fun k =>
      if k < env.nsp then s.phase.cp_R k - 5/2 else s.cinternal k }

/-- Gate for `_update_thermal_T` through the phase updater machinery
(modelled from the spec, section 4.1). -/
def updateThermal_T (env : TransportEnv) (s : TState) : TState :=
  if s.lastT_thermal = some s.phase.tempEpoch then s
  else { _update_thermal_T env s with lastT_thermal := some s.phase.tempEpoch }

/-- Translation of `MultiTransport::viscosity()`: the Wilke-Mason mixture
rule, summing x_k eta_k over the phi-weighted denominators after the
temperature and composition updates. Returns the value and the state. -/
def viscosityRun (env : TransportEnv) (s0 : TState) : ℚ × TState :=
  let s1 := updateViscosity_T env s0
  let s := updateTransport_C env s1
  (∑ k in Finset.range env.nsp,
      s.molefracs k * s.visc k
        / (∑ j in Finset.range env.nsp, s.phi k j * s.molefracs j), s)

/-- Translation of `MultiTransport::getBinaryDiffCoeffs`: refresh the
binary diffusion fits if stale and return the pressure-scaled matrix
entry d(i,j) = m_bdiff(i,j) / p (the output array entry d[ld*j + i]). -/
def getBinaryDiffCoeffsRun (env : TransportEnv) (s0 : TState) :
    (ℕ → ℕ → ℚ) × TState :=
  let s := updateDiff_T env s0
  let rp := 1 / pressure_ig s
  ((fun i j => if i < env.nsp ∧ j < env.nsp then rp * s.bdiff i j else 0), s)

/-- The state after the update stage of `solveLMatrixEquation`
(updateThermal_T followed by updateTransport_C). -/
def lPrep (env : TransportEnv) (s : TState) : TState :=
  updateTransport_C env (updateThermal_T env s)

/-- The right-hand side vector assembled by `solveLMatrixEquation`: zero
first block, the clamped mole fractions in the second and third blocks,
the third-block entry forced to zero for species without internal energy
modes. -/
def assembledB (env : TransportEnv) (s : TState) : ℕ → ℚ := fun k =>
  if k < env.nsp then 0
  else if k < 2 * env.nsp then s.molefracs (k - env.nsp)
  else if k < 3 * env.nsp then
    (if env.hasInternalModes (k - 2 * env.nsp) then s.molefracs (k - 2 * env.nsp)
     else 0)
  else 0

/-- The L matrix assembled by the nine eval_L.... calls of
`solveLMatrixEquation`, as a function of the quantities those routines
read. -/
def assembledL (env : TransportEnv) (s : TState) : ℕ → ℕ → ℚ :=
  env.evalLmatrix (lInputs s)

/-- State written back on a successful direct solve of the L matrix:
m_b and m_Lmatrix hold the assembled system, m_a the solution, the
solution flag is set, the L00,00 block is marked overwritten by the LU
factors, and the instrumentation counter records the solve. -/
def postSolveOk (env : TransportEnv) (s : TState) (sol : ℕ → ℚ) : TState :=
  { s with
    b := assembledB env s
    Lmatrix := assembledL env s
    a := sol
    lmatrix_soln_ok := true
    l0000_ok := false
    solveCount := s.solveCount + 1 }

/-- Translation of `MultiTransport::solveLMatrixEquation`: update the
thermal temperature quantities and the mole fractions, assemble b and the
L matrix, then solve by GMRES (warm started from the previous solution,
leaving the L matrix intact) or by direct factorization (throwing a
CanteraError when `solve` reports a singular system; on the error path
m_a holds the copied right-hand side and no solution flag is set). -/
def solveLMatrixEquationRun (env : TransportEnv) (s0 : TState) :
    Except CtError Unit × TState :=
  let s := lPrep env s0
  if env.gmres then
    (Except.ok (),
     { s with
       b := assembledB env s
       Lmatrix := assembledL env s
       a := env.gmresSolve (assembledL env s) (3 * env.nsp) (assembledB env s) s.a
       lmatrix_soln_ok := true
       l0000_ok := true
       solveCount := s.solveCount + 1 })
  else
    match env.lsolve (assembledL env s) (3 * env.nsp) (assembledB env s) with
    | none =>
        (Except.error (CtError.canteraError "MultiTransport::solveLMatrixEquation"
            "error in solving L matrix."),
         { s with
           b := assembledB env s
           Lmatrix := assembledL env s
           a := assembledB env s
           solveCount := s.solveCount + 1 })
    | some sol => (Except.ok (), postSolveOk env s sol)

/-- Translation of `MultiTransport::thermalConductivity()`: solve the L
matrix equation, then return -4 times the sum over the last two blocks of
the products of right-hand side and solution entries. -/
def thermalConductivityRun (env : TransportEnv) (s0 : TState) :
    Except CtError ℚ × TState :=
  match solveLMatrixEquationRun env s0 with
  | (Except.error e, s) => (Except.error e, s)
  | (Except.ok _, s) =>
      (Except.ok (-4 * ∑ k in Finset.range (2 * env.nsp),
          s.b (k + env.nsp) * s.a (k + env.nsp)), s)

/-- Translation of `MultiTransport::getThermalDiffCoeffs`: solve the L
matrix equation, then dt[k] = (1.6 / GasConstant) M_k x_k a_k. -/
def getThermalDiffCoeffsRun (env : TransportEnv) (s0 : TState) :
    Except CtError (ℕ → ℚ) × TState :=
  match solveLMatrixEquationRun env s0 with
  | (Except.error e, s) => (Except.error e, s)
  | (Except.ok _, s) =>
      (Except.ok (fun k => 8/5 / env.gasConstant * env.mw k * s.molefracs k * s.a k), s)

/-- Index of the species with the largest-magnitude mole-fraction gradient
component along the first coordinate direction (the loop computing jmax
with gradmax initialized to -1). -/
def computeJmax (env : TransportEnv) (grad_X : ℕ → ℚ) : ℕ :=
  ((List.range env.nsp).foldl
    (fun p j => if |grad_X j| > p.2 then (j, |grad_X j|) else p) (0, -1)).1

/-- The flux matrix before the constraint row replacement:
m_aa(i,j) = x_j x_i / D_ij off the diagonal and
m_aa(i,i) = x_i^2 / D_ii minus the full row sum. -/
def aaBase (env : TransportEnv) (s : TState) : ℕ → ℕ → ℚ := fun i j =>
  if i = j then
    s.molefracs j * s.molefracs i / s.bdiff i j
      - ∑ j2 in Finset.range env.nsp, s.molefracs j2 * s.molefracs i / s.bdiff i j2
  else s.molefracs j * s.molefracs i / s.bdiff i j

/-- The flux matrix after row jmax is overwritten with the mass
fractions, enforcing the flux balance condition. -/
def fluxMatrix (env : TransportEnv) (s : TState) (y : ℕ → ℚ) (jmax : ℕ) :
    ℕ → ℕ → ℚ := fun i j =>
  if i = jmax then y j else aaBase env s i j

/-- The right-hand side for spatial direction n: the mole-fraction
gradient copied from grad_X + ldx*n, with the jmax entry zeroed. -/
def fluxRhs (grad_X : ℕ → ℚ) (ldx jmax n : ℕ) : ℕ → ℚ := fun k =>
  if k = jmax then 0 else grad_X (ldx * n + k)

/-- The solved diffusion velocities scaled by rho y_k / p (the array
contents of getSpeciesFluxes after the scaling loop and before the
thermal-diffusion subtraction): entry (n, k) is the solution of the
factored system for direction n at species k times rho y_k / p. -/
def fluxScaled (env : TransportEnv) (s2 : TState) (ldx : ℕ) (grad_X : ℕ → ℚ)
    (fsolve : (ℕ → ℚ) → (ℕ → ℚ)) : ℕ → ℕ → ℚ := fun n k =>
  fsolve (fluxRhs grad_X ldx (computeJmax env grad_X) n) k
    * (s2.phase.density * s2.phase.massFractions k / pressure_ig s2)

/-- Result of `getSpeciesFluxes`. `fluxes n k` is the output array entry
fluxes[k + n*ldf]; `preSoret` is the array contents after the
rho y_k / p scaling and before the thermal-diffusion subtraction;
`dt` is the m_spwork vector of thermal-diffusion coefficients and
`dtComputed` records whether getThermalDiffCoeffs was invoked. -/
structure FluxResult where
  fluxes : ℕ → ℕ → ℚ
  preSoret : ℕ → ℕ → ℚ
  dt : ℕ → ℚ
  dtComputed : Bool

/-- First stage of `getSpeciesFluxes`: update the binary diffusion
coefficients and, when any temperature-gradient component is nonzero,
compute the thermal-diffusion coefficients into m_spwork. -/
def fluxPrep (env : TransportEnv) (s0 : TState) (ndim : ℕ) (grad_T : ℕ → ℚ) :
    Except CtError (ℕ → ℚ) × TState :=
  let s1 := updateDiff_T env s0
  if (List.range ndim).any (fun i => decide (grad_T i ≠ 0)) then
    getThermalDiffCoeffsRun env s1
  else (Except.ok (fun _ => 0), s1)

/-- Translation of `MultiTransport::getSpeciesFluxes`: after the
preparation stage, build the constrained flux matrix, factor it once
(throwing on a singular dgetrf), solve for every spatial direction, scale
by rho y_k / p, and subtract dt_k (grad_T[n] / T) when the Soret
correction is active. -/
def getSpeciesFluxesRun (env : TransportEnv) (s0 : TState) (ndim ldx : ℕ)
    (grad_T grad_X : ℕ → ℚ) : Except CtError FluxResult × TState :=
  let addTD := (List.range ndim).any (fun i => decide (grad_T i ≠ 0))
  match fluxPrep env s0 ndim grad_T with
  | (Except.error e, s2) => (Except.error e, s2)
  | (Except.ok dt, s2) =>
    let y := s2.phase.massFractions
    let jmax := computeJmax env grad_X
    match env.lsolveFactor (fluxMatrix env s2 y jmax) env.nsp with
    | none =>
        (Except.error (CtError.canteraError "MultiTransport::getSpeciesFluxes"
            "Error in DGETRF"), s2)
    | some fsolve =>
        let pre := fluxScaled env s2 ldx grad_X fsolve
        (Except.ok
          { fluxes := fun n k =>
              if addTD then pre n k - dt k * (grad_T n / s2.temp) else pre n k
            preSoret := pre
            dt := dt
            dtComputed := addTD }, s2)

/-- The state of `getMultiDiffCoeffs` just before the inversion: mole
fractions and binary diffusion coefficients updated, and the L00,00 block
reassembled when it is not marked valid. -/
def multiPrep (env : TransportEnv) (s0 : TState) : TState :=
  let s1 := updateTransport_C env s0
  let s2 := updateDiff_T env s1
  if s2.l0000_ok then s2
  else
    { s2 with
      Lmatrix := fun i j =>
        if i < env.nsp ∧ j < env.nsp then env.evalL0000 (lInputs s2) i j
        else s2.Lmatrix i j }

/-- Translation of `MultiTransport::getMultiDiffCoeffs`: invert the
translational-translational block in place; when `invert` reports a
failure the routine prints the code and calls `exit(1)` (modelled as
`processExit 1` - the process terminates, nothing propagates to the
caller). On success the inverse overwrites the block (so it is marked
stale) and d(i,j) = (16 T Wbar / (25 p M_j)) x_i (L(i,j) - L(i,i)). -/
def getMultiDiffCoeffsRun (env : TransportEnv) (s0 : TState) :
    Except CtError (ℕ → ℕ → ℚ) × TState :=
  let s := multiPrep env s0
  match env.linvert s.Lmatrix env.nsp with
  | none => (Except.error (CtError.processExit 1), s)
  | some inv =>
    let s2 :=
      { s with
        l0000_ok := false
        Lmatrix := fun i j =>
          if i < env.nsp ∧ j < env.nsp then inv i j else s.Lmatrix i j }
    let p := pressure_ig s2
    let prefactor := 16 * s2.temp * s2.phase.meanMolecularWeight / (25 * p)
    (Except.ok (fun i j =>
        if i < env.nsp ∧ j < env.nsp then
          prefactor / env.mw j * s2.molefracs i * (s2.Lmatrix i j - s2.Lmatrix i i)
        else 0), s2)

/-- State of a MultiTransport instance right after `init()`: flags false,
m_a filled with 1.0, m_b and every cache array zero-filled, no updater
has run yet. -/
def initState (_env : TransportEnv) (ph : Phase) : TState :=
  { phase := ph
    temp := 0
    logt := 0
    kbt := 0
    sqrt_t := 0
    t32 := 0
    sqrt_kbt := 0
    polytempvec := fun _ => 0
    visc := fun _ => 0
    phi := fun _ _ => 0
    bdiff := fun _ _ => 0
    om22 := fun _ _ => 0
    astar := fun _ _ => 0
    bstar := fun _ _ => 0
    cstar := fun _ _ => 0
    rotrelax := fun _ => 0
    cinternal := fun _ => 0
    molefracs := fun _ => 0
    a := fun _ => 1
    b := fun _ => 0
    Lmatrix := fun _ _ => 0
    visc_ok := false
    spvisc_ok := false
    diff_ok := false
    abc_ok := false
    l0000_ok := false
    lmatrix_soln_ok := false
    lastT_transport := none
    lastT_spvisc := none
    lastT_visc := none
    lastT_diff := none
    lastT_thermal := none
    lastC_transport := none
    solveCount := 0 }

/-- External temperature change on the owning phase: new temperature (and
the temperature-dependent phase data cp_R and pressure), temperature
epoch bumped. -/
def setTemperature (s : TState) (T : ℚ) (cp : ℕ → ℚ) (p : ℚ) : TState :=
  { s with
    phase :=
      { s.phase with
        temperature := T
        cp_R := cp
        pressure := p
        tempEpoch := s.phase.tempEpoch + 1 } }

/-- External composition change on the owning phase: new mole and mass
fractions and the composition-dependent phase data, composition epoch
bumped. -/
def setComposition (s : TState) (x y : ℕ → ℚ) (rho mmw p : ℚ) : TState :=
  { s with
    phase :=
      { s.phase with
        moleFractions := x
        massFractions := y
        density := rho
        meanMolecularWeight := mmw
        pressure := p
        compEpoch := s.phase.compEpoch + 1 } }

/-- One public transport-property query (spec section 6). -/
inductive Query where
  | viscosityQ : Query
  | binaryDiffQ : Query
  | thermalCondQ : Query
  | thermalDiffQ : Query
  | multiDiffQ : Query
  | fluxesQ (ndim ldx : ℕ) (grad_T grad_X : ℕ → ℚ) : Query

/-- The state reached after issuing a query (the numeric result, if any,
is discarded). -/
def runQuery (env : TransportEnv) (q : Query) (s : TState) : TState :=
  match q with
  | Query.viscosityQ => (viscosityRun env s).2
  | Query.binaryDiffQ => (getBinaryDiffCoeffsRun env s).2
  | Query.thermalCondQ => (thermalConductivityRun env s).2
  | Query.thermalDiffQ => (getThermalDiffCoeffsRun env s).2
  | Query.multiDiffQ => (getMultiDiffCoeffsRun env s).2
  | Query.fluxesQ ndim ldx gT gX => (getSpeciesFluxesRun env s ndim ldx gT gX).2

/-- States reachable through the public operations: a freshly initialized
instance, temperature changes, composition changes, and every query. -/
inductive Reachable (env : TransportEnv) : TState → Prop where
  | init (ph : Phase) : Reachable env (initState env ph)
  | setT (s : TState) (T : ℚ) (cp : ℕ → ℚ) (p : ℚ) :
      Reachable env s → Reachable env (setTemperature s T cp p)
  | setC (s : TState) (x y : ℕ → ℚ) (rho mmw p : ℚ) :
      Reachable env s → Reachable env (setComposition s x y rho mmw p)
  | query (s : TState) (q : Query) :
      Reachable env s → Reachable env (runQuery env q s)

/-- Symmetry of the cached binary diffusion matrix on the species block. -/
def SymmBdiff (env : TransportEnv) (s : TState) : Prop :=
  ∀ i j, i < env.nsp → j < env.nsp → s.bdiff i j = s.bdiff j i

/-- Exact solver for a 2 x 2 system by Cramer's rule, used to instantiate
the abstract LAPACK factorization on concrete two-species examples. -/
def solve2 (A : ℕ → ℕ → ℚ) : (ℕ → ℚ) → (ℕ → ℚ) := fun r k =>
  let det := A 0 0 * A 1 1 - A 0 1 * A 1 0
  if k = 0 then (A 1 1 * r 0 - A 0 1 * r 1) / det
  else if k = 1 then (A 0 0 * r 1 - A 1 0 * r 0) / det
  else 0

/-- Concrete two-species environment for witnesses: constant unit
polynomial tables, trivial rational stand-ins for log/sqrt/exp, the
identity as direct L solver, Cramer's rule as the flux factorization, and
species 1 without internal energy modes. -/
def envA : TransportEnv :=
  { nsp := 2
    mw := fun k => if k = 0 then 1 else 3
    hasInternalModes := fun k => decide (k = 0)
    visccoeffs := fun _ _ => 1
    diffcoeffs := fun _ _ => 1
    om22_poly := fun _ _ => 1
    astar_poly := fun _ _ => 1
    bstar_poly := fun _ _ => 1
    cstar_poly := fun _ _ => 1
    poly := fun _ _ => 0
    log_eps_k := fun _ _ => 0
    sqrt_eps_k := fun _ => 1
    frot_298 := fun _ => 1
    eps := fun _ => 1
    zrot := fun _ => 1
    ckMode := false
    gmres := false
    qlog := fun _ => 0
    qsqrt := fun _ => 1
    qexp := fun _ => 1
    boltzmann := 1
    gasConstant := 1
    sqrtEight := 3
    qpi := 3
    qsqrtPi := 2
    lsolve := fun _ _ b => some b
    lsolveFactor := fun A _ => some (solve2 A)
    linvert := fun m _ => some m
    gmresSolve := fun _ _ b _ => b
    evalLmatrix := fun _ _ _ => 1
    evalL0000 := fun _ _ _ => 1 }

/-- Concrete phase for witnesses: an equimolar two-species mixture with
molecular weights 1 and 3 (hence mass fractions 1/4 and 3/4) at unit
temperature, pressure and density. -/
def phaseA : Phase :=
  { temperature := 1
    pressure := 1
    density := 1
    meanMolecularWeight := 2
    moleFractions := fun k => if k = 0 then 1/2 else if k = 1 then 1/2 else 0
    massFractions := fun k => if k = 0 then 1/4 else if k = 1 then 3/4 else 0
    cp_R := fun _ => 7/2
    tempEpoch := 0
    compEpoch := 0 }

/-- Concrete state for the species-flux counterexample: the composition
cache has been populated by a viscosity query on the fresh instance. -/
def sFluxC2 : TState := (viscosityRun envA (initState envA phaseA)).2

/-- Mole-fraction gradient used by the species-flux counterexample. -/
def gradXC2 : ℕ → ℚ := fun j => if j = 0 then 1 else if j = 1 then -1 else 0

/-- Single-species environment for the Soret-correction counterexample:
molecular weight 2, a direct L solver returning the all-ones vector, and
the identity flux factorization. -/
def envC3 : TransportEnv :=
  { envA with
    nsp := 1
    mw := fun _ => 2
    lsolve := fun _ _ _ => some (fun _ => 1)
    lsolveFactor := fun _ _ => some (fun r => r) }

/-- Pure single-species phase for the Soret-correction counterexample. -/
def phaseC3 : Phase :=
  { phaseA with
    moleFractions := fun _ => 1
    massFractions := fun _ => 1
    meanMolecularWeight := 2 }

/-- Environment whose direct factorizations all report a singular
system. -/
def envSing : TransportEnv :=
  { envA with
    lsolve := fun _ _ _ => none
    lsolveFactor := fun _ _ => none
    linvert := fun _ _ => none }

/-- The flux result of a successful getSpeciesFluxes run (zero result on
the error paths), used to state concrete facts about run outputs. -/
def fluxResultOf (env : TransportEnv) (s0 : TState) (ndim ldx : ℕ)
    (grad_T grad_X : ℕ → ℚ) : FluxResult :=
  match (getSpeciesFluxesRun env s0 ndim ldx grad_T grad_X).1 with
  | Except.ok r => r
  | Except.error _ =>
      { fluxes := fun _ _ => 0
        preSoret := fun _ _ => 0
        dt := fun _ => 0
        dtComputed := false }

/-- The thermal-diffusion vector of a successful getThermalDiffCoeffs run
(zero on the error path). -/
def dtVecOf (env : TransportEnv) (s : TState) : ℕ → ℚ :=
  match (getThermalDiffCoeffsRun env s).1 with
  | Except.ok d => d
  | Except.error _ => fun _ => 0

/-- Every temperature-tier cached value of the spec's enumeration (spec
section 3, temperature tier): pure-species viscosities, binary diffusion
coefficients, the four collision-integral star matrices, rotational
relaxation rates, internal heat capacities, and the log-temperature power
vector agree between the two states. -/
def TempTierFrame (s t : TState) : Prop :=
  t.visc = s.visc ∧ t.bdiff = s.bdiff ∧ t.om22 = s.om22 ∧ t.astar = s.astar ∧
  t.bstar = s.bstar ∧ t.cstar = s.cstar ∧ t.rotrelax = s.rotrelax ∧
  t.cinternal = s.cinternal ∧ t.polytempvec = s.polytempvec

/-- Everything outside the composition tier and the solve tier agrees
between the two states: the phase, all temperature-derived scalars and
arrays, the Wilke-Mason weights, and every updater epoch except the
composition one. Used to show that composition changes and solves leave
the temperature tier untouched. -/
def CFrame (s t : TState) : Prop :=
  t.phase = s.phase ∧ t.temp = s.temp ∧ t.logt = s.logt ∧ t.kbt = s.kbt ∧
  t.sqrt_t = s.sqrt_t ∧ t.t32 = s.t32 ∧ t.sqrt_kbt = s.sqrt_kbt ∧
  t.polytempvec = s.polytempvec ∧ t.visc = s.visc ∧ t.phi = s.phi ∧
  t.bdiff = s.bdiff ∧ t.om22 = s.om22 ∧ t.astar = s.astar ∧
  t.bstar = s.bstar ∧ t.cstar = s.cstar ∧ t.rotrelax = s.rotrelax ∧
  t.cinternal = s.cinternal ∧ t.lastT_transport = s.lastT_transport ∧
  t.lastT_spvisc = s.lastT_spvisc ∧ t.lastT_visc = s.lastT_visc ∧
  t.lastT_diff = s.lastT_diff ∧ t.lastT_thermal = s.lastT_thermal

/-- Decidable equality of error values. -/
instance instDecEqCtError : DecidableEq CtError := fun a b =>
  match a, b with
  | CtError.canteraError p1 m1, CtError.canteraError p2 m2 =>
      if h1 : p1 = p2 then
        (if h2 : m1 = m2 then isTrue (by rw [h1, h2])
         else isFalse (fun hh => h2 (by injection hh)))
      else isFalse (fun hh => h1 (by injection hh))
  | CtError.canteraError _ _, CtError.processExit _ =>
      isFalse (fun hh => CtError.noConfusion hh)
  | CtError.processExit _, CtError.canteraError _ _ =>
      isFalse (fun hh => CtError.noConfusion hh)
  | CtError.processExit c1, CtError.processExit c2 =>
      if h : c1 = c2 then isTrue (by rw [h])
      else isFalse (fun hh => h (by injection hh))

/-- Decidable equality of query results. -/
instance instDecEqExceptCt {α : Type} [DecidableEq α] :
    DecidableEq (Except CtError α) := fun a b =>
  match a, b with
  | Except.ok x, Except.ok y =>
      if h : x = y then isTrue (by rw [h])
      else isFalse (fun hh => h (by injection hh))
  | Except.error e, Except.error f =>
      if h : e = f then isTrue (by rw [h])
      else isFalse (fun hh => h (by injection hh))
  | Except.ok _, Except.error _ => isFalse (fun hh => Except.noConfusion hh)
  | Except.error _, Except.ok _ => isFalse (fun hh => Except.noConfusion hh)

/-- Concrete state with every temperature-tier updater in sync: a fresh
instance after a thermal-conductivity query and a viscosity query. -/
def sSyncedA : TState :=
  (viscosityRun envA ((thermalConductivityRun envA (initState envA phaseA)).2)).2

/-- The scalar carried by a successful query result (zero on errors). -/
def qValueOf : Except CtError ℚ → ℚ
  | Except.ok v => v
  | Except.error _ => 0

theorem updateTransport_T_phase (env : TransportEnv) (s : TState) :
    (updateTransport_T env s).phase = s.phase := by
  unfold updateTransport_T
  split
  · rfl
  · rfl

theorem updateTransport_C_phase (env : TransportEnv) (s : TState) :
    (updateTransport_C env s).phase = s.phase := by
  unfold updateTransport_C
  split
  · rfl
  · rfl

theorem updateSpeciesViscosities_T_phase (env : TransportEnv) (s : TState) :
    (updateSpeciesViscosities_T env s).phase = s.phase := by
  unfold updateSpeciesViscosities_T
  split
  · rfl
  · exact updateTransport_T_phase env s

theorem updateViscosity_T_phase (env : TransportEnv) (s : TState) :
    (updateViscosity_T env s).phase = s.phase := by
  unfold updateViscosity_T
  split
  · rfl
  · exact updateSpeciesViscosities_T_phase env s

theorem updateDiff_T_phase (env : TransportEnv) (s : TState) :
    (updateDiff_T env s).phase = s.phase := by
  unfold updateDiff_T
  split
  · rfl
  · exact updateTransport_T_phase env s

theorem updateThermal_T_phase (env : TransportEnv) (s : TState) :
    (updateThermal_T env s).phase = s.phase := by
  unfold updateThermal_T
  split
  · rfl
  · exact (updateDiff_T_phase env _).trans (updateSpeciesViscosities_T_phase env s)

theorem lPrep_phase (env : TransportEnv) (s : TState) :
    (lPrep env s).phase = s.phase :=
  (updateTransport_C_phase env _).trans (updateThermal_T_phase env s)

theorem updateThermal_T_lastT_thermal (env : TransportEnv) (s : TState) :
    (updateThermal_T env s).lastT_thermal = some s.phase.tempEpoch := by
  unfold updateThermal_T
  split
  · assumption
  · rfl

theorem updateDiff_T_lastT_diff (env : TransportEnv) (s : TState) :
    (updateDiff_T env s).lastT_diff = some s.phase.tempEpoch := by
  unfold updateDiff_T
  split
  · assumption
  · rfl

theorem updateTransport_T_lastC (env : TransportEnv) (s : TState) :
    (updateTransport_T env s).lastC_transport = s.lastC_transport := by
  unfold updateTransport_T
  split
  · rfl
  · rfl

theorem updateSpeciesViscosities_T_lastC (env : TransportEnv) (s : TState) :
    (updateSpeciesViscosities_T env s).lastC_transport = s.lastC_transport := by
  unfold updateSpeciesViscosities_T
  split
  · rfl
  · exact updateTransport_T_lastC env s

theorem updateDiff_T_lastC (env : TransportEnv) (s : TState) :
    (updateDiff_T env s).lastC_transport = s.lastC_transport := by
  unfold updateDiff_T
  split
  · rfl
  · exact updateTransport_T_lastC env s

theorem updateThermal_T_lastC (env : TransportEnv) (s : TState) :
    (updateThermal_T env s).lastC_transport = s.lastC_transport := by
  unfold updateThermal_T
  split
  · rfl
  · exact (updateDiff_T_lastC env _).trans (updateSpeciesViscosities_T_lastC env s)

theorem updateTransport_C_lastC (env : TransportEnv) (s : TState) :
    (updateTransport_C env s).lastC_transport = some s.phase.compEpoch := by
  unfold updateTransport_C
  split
  · assumption
  · rfl

theorem updateTransport_C_lastT_thermal (env : TransportEnv) (s : TState) :
    (updateTransport_C env s).lastT_thermal = s.lastT_thermal := by
  unfold updateTransport_C
  split
  · rfl
  · rfl

theorem updateThermal_T_skip (env : TransportEnv) (s : TState)
    (h : s.lastT_thermal = some s.phase.tempEpoch) :
    updateThermal_T env s = s := by
  unfold updateThermal_T
  exact if_pos h

theorem updateTransport_C_skip (env : TransportEnv) (s : TState)
    (h : s.lastC_transport = some s.phase.compEpoch) :
    updateTransport_C env s = s := by
  unfold updateTransport_C
  exact if_pos h

theorem updateDiff_T_skip (env : TransportEnv) (s : TState)
    (h : s.lastT_diff = some s.phase.tempEpoch) :
    updateDiff_T env s = s := by
  unfold updateDiff_T
  exact if_pos h

theorem updateViscosity_T_skip (env : TransportEnv) (s : TState)
    (h : s.lastT_visc = some s.phase.tempEpoch) :
    updateViscosity_T env s = s := by
  unfold updateViscosity_T
  exact if_pos h

theorem CFrame_refl (s : TState) : CFrame s s :=
  ⟨rfl, rfl, rfl, rfl, rfl, rfl, rfl, rfl, rfl, rfl, rfl, rfl, rfl, rfl, rfl,
   rfl, rfl, rfl, rfl, rfl, rfl, rfl⟩

theorem CFrame_trans {s t u : TState} (h1 : CFrame s t) (h2 : CFrame t u) :
    CFrame s u := by
  obtain ⟨a1, a2, a3, a4, a5, a6, a7, a8, a9, a10, a11, a12, a13, a14, a15,
    a16, a17, a18, a19, a20, a21, a22⟩ := h1
  obtain ⟨b1, b2, b3, b4, b5, b6, b7, b8, b9, b10, b11, b12, b13, b14, b15,
    b16, b17, b18, b19, b20, b21, b22⟩ := h2
  exact ⟨b1.trans a1, b2.trans a2, b3.trans a3, b4.trans a4, b5.trans a5,
    b6.trans a6, b7.trans a7, b8.trans a8, b9.trans a9, b10.trans a10,
    b11.trans a11, b12.trans a12, b13.trans a13, b14.trans a14,
    b15.trans a15, b16.trans a16, b17.trans a17, b18.trans a18,
    b19.trans a19, b20.trans a20, b21.trans a21, b22.trans a22⟩

theorem CFrame_tempTier {s t : TState} (h : CFrame s t) : TempTierFrame s t :=
  ⟨h.2.2.2.2.2.2.2.2.1, h.2.2.2.2.2.2.2.2.2.2.1, h.2.2.2.2.2.2.2.2.2.2.2.1,
   h.2.2.2.2.2.2.2.2.2.2.2.2.1, h.2.2.2.2.2.2.2.2.2.2.2.2.2.1,
   h.2.2.2.2.2.2.2.2.2.2.2.2.2.2.1, h.2.2.2.2.2.2.2.2.2.2.2.2.2.2.2.1,
   h.2.2.2.2.2.2.2.2.2.2.2.2.2.2.2.2.1, h.2.2.2.2.2.2.2.1⟩

theorem updateTransport_C_CFrame (env : TransportEnv) (s : TState) :
    CFrame s (updateTransport_C env s) := by
  unfold updateTransport_C
  split
  · exact CFrame_refl s
  · exact ⟨rfl, rfl, rfl, rfl, rfl, rfl, rfl, rfl, rfl, rfl, rfl, rfl, rfl,
      rfl, rfl, rfl, rfl, rfl, rfl, rfl, rfl, rfl⟩

theorem lPrep_CFrame (env : TransportEnv) (s : TState)
    (h : s.lastT_thermal = some s.phase.tempEpoch) :
    CFrame s (lPrep env s) := by
  unfold lPrep
  rw [updateThermal_T_skip env s h]
  exact updateTransport_C_CFrame env s

theorem solveL_snd_CFrame (env : TransportEnv) (s : TState) :
    CFrame (lPrep env s) ((solveLMatrixEquationRun env s).2) := by
  unfold solveLMatrixEquationRun
  dsimp only
  split
  · exact ⟨rfl, rfl, rfl, rfl, rfl, rfl, rfl, rfl, rfl, rfl, rfl, rfl, rfl,
      rfl, rfl, rfl, rfl, rfl, rfl, rfl, rfl, rfl⟩
  · split
    · exact ⟨rfl, rfl, rfl, rfl, rfl, rfl, rfl, rfl, rfl, rfl, rfl, rfl, rfl,
        rfl, rfl, rfl, rfl, rfl, rfl, rfl, rfl, rfl⟩
    · exact ⟨rfl, rfl, rfl, rfl, rfl, rfl, rfl, rfl, rfl, rfl, rfl, rfl, rfl,
        rfl, rfl, rfl, rfl, rfl, rfl, rfl, rfl, rfl⟩

theorem solveL_CFrame (env : TransportEnv) (s : TState)
    (h : s.lastT_thermal = some s.phase.tempEpoch) :
    CFrame s ((solveLMatrixEquationRun env s).2) :=
  CFrame_trans (lPrep_CFrame env s h) (solveL_snd_CFrame env s)

theorem solveL_b (env : TransportEnv) (s : TState) :
    ((solveLMatrixEquationRun env s).2).b = assembledB env (lPrep env s) := by
  unfold solveLMatrixEquationRun
  dsimp only
  split
  · rfl
  · split
    · rfl
    · rfl

theorem solveL_molefracs (env : TransportEnv) (s : TState) :
    ((solveLMatrixEquationRun env s).2).molefracs = (lPrep env s).molefracs := by
  unfold solveLMatrixEquationRun
  dsimp only
  split
  · rfl
  · split
    · rfl
    · rfl

theorem thermalConductivityRun_snd (env : TransportEnv) (s : TState) :
    (thermalConductivityRun env s).2 = (solveLMatrixEquationRun env s).2 := by
  unfold thermalConductivityRun
  rcases solveLMatrixEquationRun env s with ⟨fst, snd⟩
  cases fst
  · rfl
  · rfl

theorem getThermalDiffCoeffsRun_snd (env : TransportEnv) (s : TState) :
    (getThermalDiffCoeffsRun env s).2 = (solveLMatrixEquationRun env s).2 := by
  unfold getThermalDiffCoeffsRun
  rcases solveLMatrixEquationRun env s with ⟨fst, snd⟩
  cases fst
  · rfl
  · rfl

theorem getSpeciesFluxesRun_snd (env : TransportEnv) (s0 : TState)
    (ndim ldx : ℕ) (grad_T grad_X : ℕ → ℚ) :
    (getSpeciesFluxesRun env s0 ndim ldx grad_T grad_X).2
      = (fluxPrep env s0 ndim grad_T).2 := by
  unfold getSpeciesFluxesRun
  rcases fluxPrep env s0 ndim grad_T with ⟨fst, snd⟩
  cases fst
  · rfl
  · dsimp only
    split
    · rfl
    · rfl

theorem multiPrep_CFrame (env : TransportEnv) (s : TState)
    (h : s.lastT_diff = some s.phase.tempEpoch) :
    CFrame s (multiPrep env s) := by
  unfold multiPrep
  dsimp only
  have hd : updateDiff_T env (updateTransport_C env s) = updateTransport_C env s := by
    apply updateDiff_T_skip
    obtain ⟨hph, _, _, _, _, _, _, _, _, _, _, _, _, _, _, _, _, _, _, _, hdiff, _⟩ :=
      updateTransport_C_CFrame env s
    rw [hdiff, hph, h]
  rw [hd]
  split
  · exact updateTransport_C_CFrame env s
  · exact CFrame_trans (updateTransport_C_CFrame env s)
      ⟨rfl, rfl, rfl, rfl, rfl, rfl, rfl, rfl, rfl, rfl, rfl, rfl, rfl,
       rfl, rfl, rfl, rfl, rfl, rfl, rfl, rfl, rfl⟩

theorem getMultiDiffCoeffsRun_snd_CFrame (env : TransportEnv) (s : TState)
    (h : s.lastT_diff = some s.phase.tempEpoch) :
    CFrame s ((getMultiDiffCoeffsRun env s).2) := by
  unfold getMultiDiffCoeffsRun
  dsimp only
  split
  · exact multiPrep_CFrame env s h
  · exact CFrame_trans (multiPrep_CFrame env s h)
      ⟨rfl, rfl, rfl, rfl, rfl, rfl, rfl, rfl, rfl, rfl, rfl, rfl, rfl,
       rfl, rfl, rfl, rfl, rfl, rfl, rfl, rfl, rfl⟩

theorem updateTransport_T_lastT_diff (env : TransportEnv) (s : TState) :
    (updateTransport_T env s).lastT_diff = s.lastT_diff := by
  unfold updateTransport_T
  split
  · rfl
  · rfl

theorem updateSpeciesViscosities_T_lastT_diff (env : TransportEnv) (s : TState) :
    (updateSpeciesViscosities_T env s).lastT_diff = s.lastT_diff := by
  unfold updateSpeciesViscosities_T
  split
  · rfl
  · exact updateTransport_T_lastT_diff env s

theorem solveL_lastC (env : TransportEnv) (s : TState) :
    ((solveLMatrixEquationRun env s).2).lastC_transport
      = (lPrep env s).lastC_transport := by
  unfold solveLMatrixEquationRun
  dsimp only
  split
  · rfl
  · split
    · rfl
    · rfl

theorem TempTierFrame_trans {s t u : TState} (h1 : TempTierFrame s t)
    (h2 : TempTierFrame t u) : TempTierFrame s u := by
  obtain ⟨a1, a2, a3, a4, a5, a6, a7, a8, a9⟩ := h1
  obtain ⟨b1, b2, b3, b4, b5, b6, b7, b8, b9⟩ := h2
  exact ⟨b1.trans a1, b2.trans a2, b3.trans a3, b4.trans a4, b5.trans a5,
    b6.trans a6, b7.trans a7, b8.trans a8, b9.trans a9⟩

theorem bdiffFitVal_symm (env : TransportEnv) (s : TState) (i j : ℕ) :
    bdiffFitVal env s i j = bdiffFitVal env s j i := by
  unfold bdiffFitVal
  rw [min_comm, max_comm]

theorem bdiffFitVal_congr (env : TransportEnv) {s t : TState}
    (h1 : s.polytempvec = t.polytempvec) (h2 : s.temp = t.temp)
    (h3 : s.sqrt_t = t.sqrt_t) (i j : ℕ) :
    bdiffFitVal env s i j = bdiffFitVal env t i j := by
  unfold bdiffFitVal
  rw [h1, h2, h3]

theorem symm_updateTransport_T (env : TransportEnv) (s : TState)
    (h : SymmBdiff env s) : SymmBdiff env (updateTransport_T env s) := by
  unfold updateTransport_T
  split
  · exact h
  · exact fun i j hi hj => h i j hi hj

theorem symm_updateSpeciesViscosities_T (env : TransportEnv) (s : TState)
    (h : SymmBdiff env s) : SymmBdiff env (updateSpeciesViscosities_T env s) := by
  unfold updateSpeciesViscosities_T
  split
  · exact h
  · exact fun i j hi hj => symm_updateTransport_T env s h i j hi hj

theorem symm_updateViscosity_T (env : TransportEnv) (s : TState)
    (h : SymmBdiff env s) : SymmBdiff env (updateViscosity_T env s) := by
  unfold updateViscosity_T
  split
  · exact h
  · exact fun i j hi hj => symm_updateSpeciesViscosities_T env s h i j hi hj

theorem symm_updateDiff_T (env : TransportEnv) (s : TState)
    (h : SymmBdiff env s) : SymmBdiff env (updateDiff_T env s) := by
  unfold updateDiff_T
  split
  · exact h
  · intro i j hi hj
    show (if i < env.nsp ∧ j < env.nsp
        then bdiffFitVal env (updateTransport_T env s) i j
        else (updateTransport_T env s).bdiff i j)
      = (if j < env.nsp ∧ i < env.nsp
        then bdiffFitVal env (updateTransport_T env s) j i
        else (updateTransport_T env s).bdiff j i)
    rw [if_pos ⟨hi, hj⟩, if_pos ⟨hj, hi⟩]
    exact bdiffFitVal_symm env _ i j

theorem symm_updateThermal_T (env : TransportEnv) (s : TState)
    (h : SymmBdiff env s) : SymmBdiff env (updateThermal_T env s) := by
  unfold updateThermal_T
  split
  · exact h
  · intro i j hi hj
    have hD : SymmBdiff env (updateDiff_T env (updateSpeciesViscosities_T env s)) :=
      symm_updateDiff_T env _ (symm_updateSpeciesViscosities_T env s h)
    dsimp only [_update_thermal_T]
    by_cases hij : i = j
    · subst hij
      rfl
    · rw [if_neg (fun hc => hij hc.2), if_neg (fun hc => hij hc.2.symm)]
      exact hD i j hi hj

theorem symm_updateTransport_C (env : TransportEnv) (s : TState)
    (h : SymmBdiff env s) : SymmBdiff env (updateTransport_C env s) := by
  unfold updateTransport_C
  split
  · exact h
  · exact fun i j hi hj => h i j hi hj

theorem symm_lPrep (env : TransportEnv) (s : TState) (h : SymmBdiff env s) :
    SymmBdiff env (lPrep env s) :=
  symm_updateTransport_C env _ (symm_updateThermal_T env s h)

theorem symm_of_CFrame {env : TransportEnv} {s t : TState} (hf : CFrame s t)
    (h : SymmBdiff env s) : SymmBdiff env t := by
  intro i j hi hj
  rw [hf.2.2.2.2.2.2.2.2.2.2.1]
  exact h i j hi hj

theorem symm_solveL (env : TransportEnv) (s : TState) (h : SymmBdiff env s) :
    SymmBdiff env ((solveLMatrixEquationRun env s).2) :=
  symm_of_CFrame (solveL_snd_CFrame env s) (symm_lPrep env s h)

theorem symm_fluxPrep (env : TransportEnv) (s0 : TState) (ndim : ℕ)
    (grad_T : ℕ → ℚ) (h : SymmBdiff env s0) :
    SymmBdiff env ((fluxPrep env s0 ndim grad_T).2) := by
  unfold fluxPrep
  dsimp only
  split
  · rw [getThermalDiffCoeffsRun_snd]
    exact symm_solveL env _ (symm_updateDiff_T env s0 h)
  · exact symm_updateDiff_T env s0 h

theorem symm_multiPrep (env : TransportEnv) (s : TState) (h : SymmBdiff env s) :
    SymmBdiff env (multiPrep env s) := by
  unfold multiPrep
  dsimp only
  split
  · exact symm_updateDiff_T env _ (symm_updateTransport_C env s h)
  · exact fun i j hi hj =>
      symm_updateDiff_T env _ (symm_updateTransport_C env s h) i j hi hj

theorem symm_runQuery (env : TransportEnv) (q : Query) (s : TState)
    (h : SymmBdiff env s) : SymmBdiff env (runQuery env q s) := by
  cases q with
  | viscosityQ =>
      exact symm_updateTransport_C env _ (symm_updateViscosity_T env s h)
  | binaryDiffQ => exact symm_updateDiff_T env s h
  | thermalCondQ =>
      show SymmBdiff env ((thermalConductivityRun env s).2)
      rw [thermalConductivityRun_snd]
      exact symm_solveL env s h
  | thermalDiffQ =>
      show SymmBdiff env ((getThermalDiffCoeffsRun env s).2)
      rw [getThermalDiffCoeffsRun_snd]
      exact symm_solveL env s h
  | multiDiffQ =>
      show SymmBdiff env ((getMultiDiffCoeffsRun env s).2)
      unfold getMultiDiffCoeffsRun
      dsimp only
      split
      · exact symm_multiPrep env s h
      · exact fun i j hi hj => symm_multiPrep env s h i j hi hj
  | fluxesQ ndim ldx gT gX =>
      show SymmBdiff env ((getSpeciesFluxesRun env s ndim ldx gT gX).2)
      rw [getSpeciesFluxesRun_snd]
      exact symm_fluxPrep env s ndim gT h

theorem symmBdiff_reachable (env : TransportEnv) (s : TState)
    (h : Reachable env s) : SymmBdiff env s := by
  induction h with
  | init ph => exact fun i j _ _ => rfl
  | setT s T cp p _ ih => exact fun i j hi hj => ih i j hi hj
  | setC s x y rho mmw p _ ih => exact fun i j hi hj => ih i j hi hj
  | query s q _ ih => exact symm_runQuery env q s ih

theorem solveL_direct_cases (env : TransportEnv) (s : TState)
    (hg : env.gmres = false) :
    (env.lsolve (assembledL env (lPrep env s)) (3 * env.nsp)
        (assembledB env (lPrep env s)) = none ∧
      (solveLMatrixEquationRun env s).1
        = Except.error (CtError.canteraError "MultiTransport::solveLMatrixEquation"
            "error in solving L matrix.")) ∨
    (∃ sol, env.lsolve (assembledL env (lPrep env s)) (3 * env.nsp)
        (assembledB env (lPrep env s)) = some sol ∧
      solveLMatrixEquationRun env s = (Except.ok (), postSolveOk env (lPrep env s) sol)) := by
  unfold solveLMatrixEquationRun
  dsimp only
  split
  · next hgt => rw [hg] at hgt; exact Bool.noConfusion hgt
  · rcases hsl : env.lsolve (assembledL env (lPrep env s)) (3 * env.nsp)
        (assembledB env (lPrep env s)) with _ | sol
    · left
      exact ⟨rfl, rfl⟩
    · right
      exact ⟨sol, rfl, rfl⟩

/-- Claim C1: after a successful L-matrix solve, thermalConductivity()
returns -4 times the sum, over the top two-thirds of the index range
(indices N through 3N-1 of the 3N-vectors), of the products a_k * b_k of
the solution vector a and the right-hand-side vector b. -/
theorem claim_C1 (env : TransportEnv) (s : TState) (lam : ℚ)
    (h : (thermalConductivityRun env s).1 = Except.ok lam) :
    lam = -4 * ∑ k in Finset.range (2 * env.nsp),
      ((thermalConductivityRun env s).2).a (k + env.nsp)
        * ((thermalConductivityRun env s).2).b (k + env.nsp) := by
  unfold thermalConductivityRun at h ⊢
  rcases hsl : solveLMatrixEquationRun env s with ⟨fst, snd⟩
  rw [hsl] at h
  cases fst
  · dsimp only at h
    exact Except.noConfusion h
  · dsimp only at h ⊢
    injection h with h2
    rw [← h2]
    congr 1
    exact Finset.sum_congr rfl (fun k _ => mul_comm _ _)

theorem claim_C1_witness :
    (-3 : ℚ) = -4 * ∑ k in Finset.range (2 * envA.nsp),
      ((thermalConductivityRun envA (initState envA phaseA)).2).a (k + envA.nsp)
        * ((thermalConductivityRun envA (initState envA phaseA)).2).b (k + envA.nsp) :=
  claim_C1 envA (initState envA phaseA) (-3) (by with_unfolding_all decide)

/-- Claim C4: after a successful L-matrix solve, getThermalDiffCoeffs
writes, for every species k, dt[k] = c M_k x_k a_k, where c = 1.6 divided
by the gas constant, M_k the molecular weight, x_k the floor-clamped mole
fraction, and a_k the k-th entry of the first third of the L-matrix
solution vector (the second conjunct identifies the state's a with the
direct solver's solution of the assembled system). -/
theorem claim_C4 (env : TransportEnv) (s : TState) (dt : ℕ → ℚ)
    (hg : env.gmres = false)
    (h : (getThermalDiffCoeffsRun env s).1 = Except.ok dt) :
    (∀ k ∈ Finset.range env.nsp,
      dt k = 8/5 / env.gasConstant * env.mw k
          * ((getThermalDiffCoeffsRun env s).2).molefracs k
          * ((getThermalDiffCoeffsRun env s).2).a k) ∧
    env.lsolve (assembledL env (lPrep env s)) (3 * env.nsp)
        (assembledB env (lPrep env s))
      = some ((getThermalDiffCoeffsRun env s).2).a := by
  rcases solveL_direct_cases env s hg with ⟨hnone, herr⟩ | ⟨sol, hsol, heq⟩
  · exfalso
    unfold getThermalDiffCoeffsRun at h
    rcases hslp : solveLMatrixEquationRun env s with ⟨fst, snd⟩
    rw [hslp] at h herr
    cases fst
    · dsimp only at h
      exact Except.noConfusion h
    · dsimp only at herr
      exact Except.noConfusion herr
  · unfold getThermalDiffCoeffsRun at h ⊢
    rw [heq] at h ⊢
    dsimp only at h ⊢
    injection h with h2
    constructor
    · intro k hk
      rw [← h2]
    · exact hsol

theorem claim_C4_witness :
    dtVecOf envA (initState envA phaseA) 0
        = 8/5 / envA.gasConstant * envA.mw 0
            * ((getThermalDiffCoeffsRun envA (initState envA phaseA)).2).molefracs 0
            * ((getThermalDiffCoeffsRun envA (initState envA phaseA)).2).a 0 ∧
      envA.lsolve (assembledL envA (lPrep envA (initState envA phaseA)))
          (3 * envA.nsp) (assembledB envA (lPrep envA (initState envA phaseA)))
        = some ((getThermalDiffCoeffsRun envA (initState envA phaseA)).2).a := by
  have hmain := claim_C4 envA (initState envA phaseA)
    (dtVecOf envA (initState envA phaseA)) rfl (by with_unfolding_all rfl)
  exact ⟨hmain.1 0 (by decide), hmain.2⟩

/-- Claim C5: whenever the L-matrix equation is set up after a
composition change, the right-hand-side vector b of length 3N has its
first N entries zero, its second N entries equal to the floor-clamped
mole fractions, and its third N entries equal to the floor-clamped mole
fractions except that entry 2N+k is zero for every species k without
internal energy modes; the mole fractions used are the phase's mole
fractions clamped from below to 1e-20. -/
theorem claim_C5 (env : TransportEnv) (s : TState)
    (hc : s.lastC_transport ≠ some s.phase.compEpoch) :
    ∀ k ∈ Finset.range env.nsp,
      ((solveLMatrixEquationRun env s).2).b k = 0 ∧
      ((solveLMatrixEquationRun env s).2).b (env.nsp + k)
        = max MIN_X (s.phase.moleFractions k) ∧
      ((solveLMatrixEquationRun env s).2).b (2 * env.nsp + k)
        = (if env.hasInternalModes k then max MIN_X (s.phase.moleFractions k)
           else 0) := by
  intro k hk
  rw [Finset.mem_range] at hk
  have hmf : (lPrep env s).molefracs
      = fun k => max MIN_X (s.phase.moleFractions k) := by
    unfold lPrep updateTransport_C
    rw [if_neg]
    · show (_update_transport_C env (updateThermal_T env s)).molefracs = _
      unfold _update_transport_C
      rw [updateThermal_T_phase env s]
    · rw [updateThermal_T_lastC env s, updateThermal_T_phase env s]
      exact hc
  refine ⟨?_, ?_, ?_⟩
  · rw [solveL_b]
    simp only [assembledB]
    rw [if_pos hk]
  · rw [solveL_b]
    simp only [assembledB]
    rw [if_neg (by omega), if_pos (by omega), Nat.add_sub_cancel_left, hmf]
  · rw [solveL_b]
    simp only [assembledB]
    rw [if_neg (by omega), if_neg (by omega), if_pos (by omega),
      show 2 * env.nsp + k - 2 * env.nsp = k by omega, hmf]

theorem claim_C5_witness :
    ((solveLMatrixEquationRun envA (initState envA phaseA)).2).b 1 = 0 ∧
    ((solveLMatrixEquationRun envA (initState envA phaseA)).2).b (envA.nsp + 1)
      = max MIN_X (phaseA.moleFractions 1) ∧
    ((solveLMatrixEquationRun envA (initState envA phaseA)).2).b (2 * envA.nsp + 1)
      = (if envA.hasInternalModes 1 then max MIN_X (phaseA.moleFractions 1)
         else 0) :=
  claim_C5 envA (initState envA phaseA) (by decide) 1 (by decide)

theorem thermalConductivityRun_err (env : TransportEnv) (s : TState)
    (er : CtError) (h : (solveLMatrixEquationRun env s).1 = Except.error er) :
    (thermalConductivityRun env s).1 = Except.error er := by
  unfold thermalConductivityRun
  rcases hsl : solveLMatrixEquationRun env s with ⟨fst, snd⟩
  rw [hsl] at h
  cases fst
  · dsimp only at h ⊢
    injection h with h2
    rw [h2]
  · dsimp only at h
    exact Except.noConfusion h

/-- Claim C6 (counterexample): on a concrete two-species instance, the
second of two consecutive thermalConductivity() calls with no intervening
state change still performs an L-matrix assembly and solve (the solve
counter advances from 1 to 2, and both solves complete successfully), so
the second call is not served from a solve-tier cache. -/
theorem claim_C6_counterexample :
    exceptIsOk (thermalConductivityRun envA (initState envA phaseA)).1 = true ∧
    exceptIsOk (thermalConductivityRun envA
        ((thermalConductivityRun envA (initState envA phaseA)).2)).1 = true ∧
    ((thermalConductivityRun envA (initState envA phaseA)).2).solveCount = 1 ∧
    ((thermalConductivityRun envA
        ((thermalConductivityRun envA (initState envA phaseA)).2)).2).solveCount
      = 2 :=
  ⟨by with_unfolding_all decide, by with_unfolding_all decide,
   by with_unfolding_all decide, by with_unfolding_all decide⟩

/-- Claim C6 (amended): two consecutive thermalConductivity() calls with
no intervening temperature or composition change return identical results
under the default direct (LU) solver configuration, but the second call
re-runs the L-matrix assembly and solve (the solve counter advances); the
solve-tier flag is set by the solve yet never consulted before solving. -/
theorem claim_C6_amended (env : TransportEnv) (s : TState) (lam : ℚ)
    (hg : env.gmres = false)
    (h1 : (thermalConductivityRun env s).1 = Except.ok lam) :
    (thermalConductivityRun env ((thermalConductivityRun env s).2)).1
      = Except.ok lam ∧
    ((thermalConductivityRun env ((thermalConductivityRun env s).2)).2).solveCount
      = ((thermalConductivityRun env s).2).solveCount + 1 := by
  rcases solveL_direct_cases env s hg with ⟨hnone, herr⟩ | ⟨sol, hsol, heq⟩
  · rw [thermalConductivityRun_err env s _ herr] at h1
    exact Except.noConfusion h1
  · have hrun1 : thermalConductivityRun env s
        = (Except.ok (-4 * ∑ k in Finset.range (2 * env.nsp),
            (postSolveOk env (lPrep env s) sol).b (k + env.nsp)
              * (postSolveOk env (lPrep env s) sol).a (k + env.nsp)),
           postSolveOk env (lPrep env s) sol) := by
      unfold thermalConductivityRun
      rw [heq]
    rw [hrun1] at h1
    dsimp only at h1
    injection h1 with hlam
    rw [hrun1]
    dsimp only
    have e1 : (postSolveOk env (lPrep env s) sol).lastT_thermal
        = some (postSolveOk env (lPrep env s) sol).phase.tempEpoch := by
      show (lPrep env s).lastT_thermal = some (lPrep env s).phase.tempEpoch
      unfold lPrep
      rw [updateTransport_C_lastT_thermal, updateThermal_T_lastT_thermal,
        updateTransport_C_phase, updateThermal_T_phase]
    have e2 : (postSolveOk env (lPrep env s) sol).lastC_transport
        = some (postSolveOk env (lPrep env s) sol).phase.compEpoch := by
      show (lPrep env s).lastC_transport = some (lPrep env s).phase.compEpoch
      unfold lPrep
      rw [updateTransport_C_lastC, updateTransport_C_phase, updateThermal_T_phase]
    have hfix : lPrep env (postSolveOk env (lPrep env s) sol)
        = postSolveOk env (lPrep env s) sol := by
      show updateTransport_C env
          (updateThermal_T env (postSolveOk env (lPrep env s) sol))
          = postSolveOk env (lPrep env s) sol
      rw [updateThermal_T_skip env _ e1, updateTransport_C_skip env _ e2]
    have hrun2 : thermalConductivityRun env (postSolveOk env (lPrep env s) sol)
        = (Except.ok (-4 * ∑ k in Finset.range (2 * env.nsp),
            (postSolveOk env (postSolveOk env (lPrep env s) sol) sol).b (k + env.nsp)
              * (postSolveOk env (postSolveOk env (lPrep env s) sol) sol).a (k + env.nsp)),
           postSolveOk env (postSolveOk env (lPrep env s) sol) sol) := by
      unfold thermalConductivityRun solveLMatrixEquationRun
      dsimp only
      rw [hfix, hg, if_neg Bool.false_ne_true]
      rw [show assembledL env (postSolveOk env (lPrep env s) sol)
            = assembledL env (lPrep env s) from rfl,
        show assembledB env (postSolveOk env (lPrep env s) sol)
            = assembledB env (lPrep env s) from rfl,
        hsol]
    rw [hrun2]
    refine ⟨?_, rfl⟩
    rw [← hlam]
    rfl

theorem claim_C6_amended_witness :
    (thermalConductivityRun envA
        ((thermalConductivityRun envA (initState envA phaseA)).2)).1
      = Except.ok (-3) ∧
    ((thermalConductivityRun envA
        ((thermalConductivityRun envA (initState envA phaseA)).2)).2).solveCount
      = ((thermalConductivityRun envA (initState envA phaseA)).2).solveCount + 1 :=
  claim_C6_amended envA (initState envA phaseA) (-3) rfl
    (by with_unfolding_all decide)

/-- Claim C9 (counterexample): when `invert` reports a non-invertible
translational-translational block inside getMultiDiffCoeffs, the code
does not raise a propagating CanteraError; it prints the code and calls
exit(1), terminating the process, so no error reaches the caller. -/
theorem claim_C9_counterexample :
    raisesCanteraError (getMultiDiffCoeffsRun envSing (initState envSing phaseA)).1
      = false ∧
    isProcessExit 1 (getMultiDiffCoeffsRun envSing (initState envSing phaseA)).1
      = true :=
  ⟨by with_unfolding_all decide, by with_unfolding_all decide⟩

/-- Claim C9 (amended): a non-invertible system reported by the direct
factorization raises a CanteraError that propagates to the immediate
caller for the 3N L-matrix solve (here observed through
thermalConductivity) and for the flux-solver N by N factorization, with
no partial result; the failed inversion inside getMultiDiffCoeffs instead
terminates the process via exit(1), so nothing propagates to its
caller. -/
theorem claim_C9_amended (env : TransportEnv) (s1 s2 s3 : TState)
    (ndim ldx : ℕ) (grad_T grad_X : ℕ → ℚ) :
    (env.gmres = false →
      env.lsolve (assembledL env (lPrep env s1)) (3 * env.nsp)
          (assembledB env (lPrep env s1)) = none →
      (thermalConductivityRun env s1).1
        = Except.error (CtError.canteraError "MultiTransport::solveLMatrixEquation"
            "error in solving L matrix.")) ∧
    ((∀ i ∈ Finset.range ndim, grad_T i = 0) →
      env.lsolveFactor
          (fluxMatrix env (updateDiff_T env s2)
            ((updateDiff_T env s2).phase.massFractions) (computeJmax env grad_X))
          env.nsp = none →
      (getSpeciesFluxesRun env s2 ndim ldx grad_T grad_X).1
        = Except.error (CtError.canteraError "MultiTransport::getSpeciesFluxes"
            "Error in DGETRF")) ∧
    (env.linvert ((multiPrep env s3).Lmatrix) env.nsp = none →
      (getMultiDiffCoeffsRun env s3).1 = Except.error (CtError.processExit 1)) := by
  refine ⟨?_, ?_, ?_⟩
  · intro hg hnone
    rcases solveL_direct_cases env s1 hg with ⟨_, herr⟩ | ⟨sol, hsol, _⟩
    · exact thermalConductivityRun_err env s1 _ herr
    · rw [hnone] at hsol
      exact Option.noConfusion hsol
  · intro hz hfac
    have hadd : ((List.range ndim).any fun i => decide (grad_T i ≠ 0)) = false := by
      rw [List.any_eq_false]
      intro i hi
      rw [List.mem_range] at hi
      simp [hz i (Finset.mem_range.mpr hi)]
    have hprep : fluxPrep env s2 ndim grad_T
        = (Except.ok (fun _ => (0 : ℚ)), updateDiff_T env s2) := by
      unfold fluxPrep
      rw [hadd, if_neg Bool.false_ne_true]
    unfold getSpeciesFluxesRun
    rw [hprep]
    dsimp only
    rw [hfac]
  · intro hinv
    unfold getMultiDiffCoeffsRun
    dsimp only
    rw [hinv]

theorem getSpeciesFluxesRun_ok (env : TransportEnv) (s0 : TState)
    (ndim ldx : ℕ) (grad_T grad_X : ℕ → ℚ) (dt : ℕ → ℚ)
    (fsolve : (ℕ → ℚ) → (ℕ → ℚ))
    (hprep : (fluxPrep env s0 ndim grad_T).1 = Except.ok dt)
    (hfac : env.lsolveFactor
        (fluxMatrix env (fluxPrep env s0 ndim grad_T).2
          ((fluxPrep env s0 ndim grad_T).2).phase.massFractions
          (computeJmax env grad_X)) env.nsp = some fsolve) :
    getSpeciesFluxesRun env s0 ndim ldx grad_T grad_X
      = (Except.ok
          { fluxes := fun n k =>
              if ((List.range ndim).any fun i => decide (grad_T i ≠ 0)) then
                fluxScaled env (fluxPrep env s0 ndim grad_T).2 ldx grad_X fsolve n k
                  - dt k * (grad_T n / ((fluxPrep env s0 ndim grad_T).2).temp)
              else
                fluxScaled env (fluxPrep env s0 ndim grad_T).2 ldx grad_X fsolve n k
            preSoret := fluxScaled env (fluxPrep env s0 ndim grad_T).2 ldx grad_X fsolve
            dt := dt
            dtComputed := (List.range ndim).any fun i => decide (grad_T i ≠ 0) },
         (fluxPrep env s0 ndim grad_T).2) := by
  unfold getSpeciesFluxesRun
  rcases hp : fluxPrep env s0 ndim grad_T with ⟨fst, s2⟩
  rw [hp] at hprep hfac
  dsimp only at hprep hfac ⊢
  cases fst
  · exact Except.noConfusion hprep
  · injection hprep with hdt
    subst hdt
    dsimp only
    rw [hfac]

/-- Claim C2 (counterexample): on a concrete two-species run of
getSpeciesFluxes (zero temperature gradient, gradients 1 and -1, mass
fractions 1/4 and 3/4), the run succeeds and the sum over species of
Y_k times the flux component is exactly 3/8, not zero: the fluxes are
already mass fluxes, so weighting them again by the mass fractions breaks
the balance that the solver enforces. -/
theorem claim_C2_counterexample :
    exceptIsOk (getSpeciesFluxesRun envA sFluxC2 1 2 (fun _ => 0) gradXC2).1
      = true ∧
    ∑ k in Finset.range envA.nsp,
        sFluxC2.phase.massFractions k
          * (fluxResultOf envA sFluxC2 1 2 (fun _ => 0) gradXC2).fluxes 0 k
      = 3/8 ∧
    (3/8 : ℚ) ≠ 0 :=
  ⟨by with_unfolding_all decide, by with_unfolding_all decide,
   by with_unfolding_all decide⟩

/-- Claim C2 (amended): for every spatial direction, the diffusive mass
fluxes written by getSpeciesFluxes satisfy the zero-net-diffusive-flux
condition in the form the constraint row enforces: the sum over species k
of the flux components themselves (the fluxes are mass fluxes, rho Y_k
V_k / p, so this is the statement sum of Y_k V_k = 0 for the diffusion
velocities) is exactly zero before the Soret correction, and hence for
the final output whenever every temperature-gradient component is zero;
the hypothesis hrow states that the factored solver's solution satisfies
the jmax (mass-fraction) row of the constrained system. -/
theorem claim_C2_amended (env : TransportEnv) (s0 : TState) (ndim ldx : ℕ)
    (grad_T grad_X : ℕ → ℚ) (dt : ℕ → ℚ) (fsolve : (ℕ → ℚ) → (ℕ → ℚ))
    (r : FluxResult)
    (hprep : (fluxPrep env s0 ndim grad_T).1 = Except.ok dt)
    (hfac : env.lsolveFactor
        (fluxMatrix env (fluxPrep env s0 ndim grad_T).2
          ((fluxPrep env s0 ndim grad_T).2).phase.massFractions
          (computeJmax env grad_X)) env.nsp = some fsolve)
    (hrow : ∀ n ∈ Finset.range ndim,
      ∑ j in Finset.range env.nsp,
        fluxMatrix env (fluxPrep env s0 ndim grad_T).2
            ((fluxPrep env s0 ndim grad_T).2).phase.massFractions
            (computeJmax env grad_X) (computeJmax env grad_X) j
          * fsolve (fluxRhs grad_X ldx (computeJmax env grad_X) n) j
        = fluxRhs grad_X ldx (computeJmax env grad_X) n (computeJmax env grad_X))
    (hres : (getSpeciesFluxesRun env s0 ndim ldx grad_T grad_X).1 = Except.ok r) :
    ∀ n ∈ Finset.range ndim,
      (∑ k in Finset.range env.nsp, r.preSoret n k = 0) ∧
      ((∀ i ∈ Finset.range ndim, grad_T i = 0) →
        ∑ k in Finset.range env.nsp, r.fluxes n k = 0) := by
  have hok := getSpeciesFluxesRun_ok env s0 ndim ldx grad_T grad_X dt fsolve
    hprep hfac
  rw [hok] at hres
  dsimp only at hres
  injection hres with hr
  subst hr
  intro n hn
  have h0 : ∑ j in Finset.range env.nsp,
      ((fluxPrep env s0 ndim grad_T).2).phase.massFractions j
        * fsolve (fluxRhs grad_X ldx (computeJmax env grad_X) n) j = 0 := by
    have hr2 := hrow n hn
    rw [show fluxRhs grad_X ldx (computeJmax env grad_X) n (computeJmax env grad_X)
        = 0 by simp [fluxRhs]] at hr2
    calc ∑ j in Finset.range env.nsp,
          ((fluxPrep env s0 ndim grad_T).2).phase.massFractions j
            * fsolve (fluxRhs grad_X ldx (computeJmax env grad_X) n) j
        = ∑ j in Finset.range env.nsp,
            fluxMatrix env (fluxPrep env s0 ndim grad_T).2
                ((fluxPrep env s0 ndim grad_T).2).phase.massFractions
                (computeJmax env grad_X) (computeJmax env grad_X) j
              * fsolve (fluxRhs grad_X ldx (computeJmax env grad_X) n) j := by
          exact Finset.sum_congr rfl (fun j _ => by simp [fluxMatrix])
      _ = 0 := hr2
  have hpre : ∑ k in Finset.range env.nsp,
      fluxScaled env (fluxPrep env s0 ndim grad_T).2 ldx grad_X fsolve n k = 0 := by
    unfold fluxScaled
    calc ∑ k in Finset.range env.nsp,
          fsolve (fluxRhs grad_X ldx (computeJmax env grad_X) n) k
            * (((fluxPrep env s0 ndim grad_T).2).phase.density
                * ((fluxPrep env s0 ndim grad_T).2).phase.massFractions k
                / pressure_ig (fluxPrep env s0 ndim grad_T).2)
        = ∑ k in Finset.range env.nsp,
            ((fluxPrep env s0 ndim grad_T).2).phase.density
                / pressure_ig (fluxPrep env s0 ndim grad_T).2
              * (((fluxPrep env s0 ndim grad_T).2).phase.massFractions k
                  * fsolve (fluxRhs grad_X ldx (computeJmax env grad_X) n) k) := by
          exact Finset.sum_congr rfl (fun k _ => by ring)
      _ = ((fluxPrep env s0 ndim grad_T).2).phase.density
              / pressure_ig (fluxPrep env s0 ndim grad_T).2
            * ∑ k in Finset.range env.nsp,
              ((fluxPrep env s0 ndim grad_T).2).phase.massFractions k
                * fsolve (fluxRhs grad_X ldx (computeJmax env grad_X) n) k := by
          rw [Finset.mul_sum]
      _ = 0 := by rw [h0, mul_zero]
  refine ⟨hpre, ?_⟩
  intro hz
  have hadd : ((List.range ndim).any fun i => decide (grad_T i ≠ 0)) = false := by
    rw [List.any_eq_false]
    intro i hi
    rw [List.mem_range] at hi
    simp [hz i (Finset.mem_range.mpr hi)]
  calc ∑ k in Finset.range env.nsp,
        (if ((List.range ndim).any fun i => decide (grad_T i ≠ 0)) then
          fluxScaled env (fluxPrep env s0 ndim grad_T).2 ldx grad_X fsolve n k
            - dt k * (grad_T n / ((fluxPrep env s0 ndim grad_T).2).temp)
         else fluxScaled env (fluxPrep env s0 ndim grad_T).2 ldx grad_X fsolve n k)
      = ∑ k in Finset.range env.nsp,
          fluxScaled env (fluxPrep env s0 ndim grad_T).2 ldx grad_X fsolve n k := by
        exact Finset.sum_congr rfl
          (fun k _ => by rw [hadd, if_neg Bool.false_ne_true])
    _ = 0 := hpre

theorem claim_C2_amended_witness :
    (∑ k in Finset.range envA.nsp,
        (fluxResultOf envA sFluxC2 1 2 (fun _ => 0) gradXC2).preSoret 0 k = 0) ∧
    ∑ k in Finset.range envA.nsp,
        (fluxResultOf envA sFluxC2 1 2 (fun _ => 0) gradXC2).fluxes 0 k = 0 := by
  have h := claim_C2_amended envA sFluxC2 1 2 (fun _ => 0) gradXC2 (fun _ => 0)
    (solve2 (fluxMatrix envA (fluxPrep envA sFluxC2 1 (fun _ => 0)).2
      ((fluxPrep envA sFluxC2 1 (fun _ => 0)).2).phase.massFractions
      (computeJmax envA gradXC2)))
    (fluxResultOf envA sFluxC2 1 2 (fun _ => 0) gradXC2)
    (by with_unfolding_all rfl) rfl (by with_unfolding_all decide)
    (by with_unfolding_all rfl) 0 (by decide)
  exact ⟨h.1, h.2 (by decide)⟩

/-- Claim C3 (counterexample): on a concrete one-species run with a unit
temperature gradient (molecular weight 2, mole fraction 1), the flux
written by getSpeciesFluxes is -16/5, which equals the pre-Soret value
minus dt_k (grad_T/T); the claim's quantity M_k x_k dt_k (grad_T/T) would
instead give -32/5, so the code does not subtract the extra factor
M_k x_k on top of the thermal-diffusion coefficient. -/
theorem claim_C3_counterexample :
    exceptIsOk (getSpeciesFluxesRun envC3 (initState envC3 phaseC3) 1 1
        (fun _ => 1) (fun _ => 0)).1 = true ∧
    (fluxResultOf envC3 (initState envC3 phaseC3) 1 1
        (fun _ => 1) (fun _ => 0)).fluxes 0 0 = -16/5 ∧
    (fluxResultOf envC3 (initState envC3 phaseC3) 1 1
          (fun _ => 1) (fun _ => 0)).preSoret 0 0
        - (fluxResultOf envC3 (initState envC3 phaseC3) 1 1
            (fun _ => 1) (fun _ => 0)).dt 0
          * (1 / ((getSpeciesFluxesRun envC3 (initState envC3 phaseC3) 1 1
              (fun _ => 1) (fun _ => 0)).2).temp)
      = -16/5 ∧
    (fluxResultOf envC3 (initState envC3 phaseC3) 1 1
          (fun _ => 1) (fun _ => 0)).preSoret 0 0
        - envC3.mw 0
          * ((getSpeciesFluxesRun envC3 (initState envC3 phaseC3) 1 1
              (fun _ => 1) (fun _ => 0)).2).molefracs 0
          * (fluxResultOf envC3 (initState envC3 phaseC3) 1 1
              (fun _ => 1) (fun _ => 0)).dt 0
          * (1 / ((getSpeciesFluxesRun envC3 (initState envC3 phaseC3) 1 1
              (fun _ => 1) (fun _ => 0)).2).temp)
      = -32/5 ∧
    (-16/5 : ℚ) ≠ -32/5 :=
  ⟨by with_unfolding_all decide, by with_unfolding_all decide,
   by with_unfolding_all decide, by with_unfolding_all decide,
   by with_unfolding_all decide⟩

/-- Claim C3 (amended): in getSpeciesFluxes, if any component of grad_T
is nonzero then the thermal-diffusion coefficients dt are computed (via
getThermalDiffCoeffs) and, for every spatial direction n and species k,
the quantity dt_k (grad_T[n] / T) - the thermal-diffusion coefficient
itself, which already contains the factor M_k x_k - is subtracted from
the flux component; if every component of grad_T is zero, no subtraction
occurs, no thermal-diffusion coefficients are computed, and the state is
left exactly as the binary-diffusion update produced it. -/
theorem claim_C3_amended (env : TransportEnv) (s0 : TState) (ndim ldx : ℕ)
    (grad_T grad_X : ℕ → ℚ) (dt : ℕ → ℚ) (fsolve : (ℕ → ℚ) → (ℕ → ℚ))
    (r : FluxResult)
    (hprep : (fluxPrep env s0 ndim grad_T).1 = Except.ok dt)
    (hfac : env.lsolveFactor
        (fluxMatrix env (fluxPrep env s0 ndim grad_T).2
          ((fluxPrep env s0 ndim grad_T).2).phase.massFractions
          (computeJmax env grad_X)) env.nsp = some fsolve)
    (hres : (getSpeciesFluxesRun env s0 ndim ldx grad_T grad_X).1 = Except.ok r) :
    (((List.range ndim).any fun i => decide (grad_T i ≠ 0)) = true →
      r.dtComputed = true ∧ r.dt = dt ∧
      (getThermalDiffCoeffsRun env (updateDiff_T env s0)).1 = Except.ok dt ∧
      ∀ n ∈ Finset.range ndim, ∀ k,
        r.fluxes n k = r.preSoret n k
          - dt k * (grad_T n / ((fluxPrep env s0 ndim grad_T).2).temp)) ∧
    (((List.range ndim).any fun i => decide (grad_T i ≠ 0)) = false →
      r.dtComputed = false ∧
      (getSpeciesFluxesRun env s0 ndim ldx grad_T grad_X).2 = updateDiff_T env s0 ∧
      ∀ n k, r.fluxes n k = r.preSoret n k) := by
  have hok := getSpeciesFluxesRun_ok env s0 ndim ldx grad_T grad_X dt fsolve
    hprep hfac
  rw [hok] at hres
  dsimp only at hres
  injection hres with hr
  subst hr
  constructor
  · intro hT
    have hpfix : fluxPrep env s0 ndim grad_T
        = getThermalDiffCoeffsRun env (updateDiff_T env s0) := by
      unfold fluxPrep
      rw [hT, if_pos rfl]
    refine ⟨by dsimp only; rw [hT], rfl, ?_, ?_⟩
    · rw [← hpfix]
      exact hprep
    · intro n _ k
      dsimp only
      rw [hT, if_pos rfl]
  · intro hF
    have hpfix : fluxPrep env s0 ndim grad_T
        = (Except.ok (fun _ => (0 : ℚ)), updateDiff_T env s0) := by
      unfold fluxPrep
      rw [hF, if_neg Bool.false_ne_true]
    refine ⟨by dsimp only; rw [hF], ?_, ?_⟩
    · rw [getSpeciesFluxesRun_snd, hpfix]
    · intro n k
      dsimp only
      rw [hF, if_neg Bool.false_ne_true]

theorem claim_C3_amended_witness :
    (fluxResultOf envC3 (initState envC3 phaseC3) 1 1
        (fun _ => 1) (fun _ => 0)).dtComputed = true ∧
    (fluxResultOf envC3 (initState envC3 phaseC3) 1 1
        (fun _ => 1) (fun _ => 0)).fluxes 0 0
      = (fluxResultOf envC3 (initState envC3 phaseC3) 1 1
          (fun _ => 1) (fun _ => 0)).preSoret 0 0
        - dtVecOf envC3 (updateDiff_T envC3 (initState envC3 phaseC3)) 0
          * ((fun _ => (1 : ℚ)) 0
              / ((fluxPrep envC3 (initState envC3 phaseC3) 1 (fun _ => 1)).2).temp) := by
  have h := (claim_C3_amended envC3 (initState envC3 phaseC3) 1 1
    (fun _ => 1) (fun _ => 0)
    (dtVecOf envC3 (updateDiff_T envC3 (initState envC3 phaseC3)))
    (fun r => r)
    (fluxResultOf envC3 (initState envC3 phaseC3) 1 1 (fun _ => 1) (fun _ => 0))
    (by with_unfolding_all rfl) rfl (by with_unfolding_all rfl)).1
    (by with_unfolding_all decide)
  exact ⟨h.1, h.2.2.2 0 (by decide) 0⟩

/-- Claim C8: for every pair of species indices i and j, the binary
diffusion coefficient matrix returned by getBinaryDiffCoeffs is
symmetric - the entry for (i,j) equals the entry for (j,i), exactly over
the rationals - for any state reachable through the public operations,
including after a thermal-tier update that rewrites the diagonal. -/
theorem claim_C8 (env : TransportEnv) (s : TState) (h : Reachable env s)
    (i j : ℕ) (hi : i < env.nsp) (hj : j < env.nsp) :
    (getBinaryDiffCoeffsRun env s).1 i j = (getBinaryDiffCoeffsRun env s).1 j i := by
  have hb : SymmBdiff env (updateDiff_T env s) :=
    symm_updateDiff_T env s (symmBdiff_reachable env s h)
  unfold getBinaryDiffCoeffsRun
  dsimp only
  rw [if_pos ⟨hi, hj⟩, if_pos ⟨hj, hi⟩, hb i j hi hj]

theorem claim_C8_witness :
    (getBinaryDiffCoeffsRun envA (initState envA phaseA)).1 0 1
      = (getBinaryDiffCoeffsRun envA (initState envA phaseA)).1 1 0 :=
  claim_C8 envA (initState envA phaseA) (Reachable.init phaseA) 0 1
    (by decide) (by decide)

theorem query_CFrame (env : TransportEnv) (s : TState) (q : Query)
    (hv : s.lastT_visc = some s.phase.tempEpoch)
    (hd : s.lastT_diff = some s.phase.tempEpoch)
    (hth : s.lastT_thermal = some s.phase.tempEpoch) :
    CFrame s (runQuery env q s) := by
  cases q with
  | viscosityQ =>
      show CFrame s (updateTransport_C env (updateViscosity_T env s))
      rw [updateViscosity_T_skip env s hv]
      exact updateTransport_C_CFrame env s
  | binaryDiffQ =>
      show CFrame s (updateDiff_T env s)
      rw [updateDiff_T_skip env s hd]
      exact CFrame_refl s
  | thermalCondQ =>
      show CFrame s ((thermalConductivityRun env s).2)
      rw [thermalConductivityRun_snd]
      exact solveL_CFrame env s hth
  | thermalDiffQ =>
      show CFrame s ((getThermalDiffCoeffsRun env s).2)
      rw [getThermalDiffCoeffsRun_snd]
      exact solveL_CFrame env s hth
  | multiDiffQ =>
      exact getMultiDiffCoeffsRun_snd_CFrame env s hd
  | fluxesQ ndim ldx gT gX =>
      show CFrame s ((getSpeciesFluxesRun env s ndim ldx gT gX).2)
      rw [getSpeciesFluxesRun_snd]
      unfold fluxPrep
      dsimp only
      split
      · rw [getThermalDiffCoeffsRun_snd, updateDiff_T_skip env s hd]
        exact solveL_CFrame env s hth
      · rw [updateDiff_T_skip env s hd]
        exact CFrame_refl s

/-- Claim C7: a composition (mole-fraction) change followed by any
transport-property query leaves every temperature-tier cached value
unchanged (pure-species viscosities, binary diffusion coefficients, the
collision-integral star matrices, rotational relaxation rates, internal
heat capacities, the log-temperature power vector); the composition-tier
mole-fraction cache is refreshed to the clamp of the new mole fractions
and its epoch is brought up to date (shown for the thermalConductivity
query, which consults it), while the solve tier is free to change. -/
theorem claim_C7 (env : TransportEnv) (s : TState) (x y : ℕ → ℚ)
    (rho mmw p : ℚ) (q : Query)
    (hv : s.lastT_visc = some s.phase.tempEpoch)
    (hd : s.lastT_diff = some s.phase.tempEpoch)
    (hth : s.lastT_thermal = some s.phase.tempEpoch)
    (hc : s.lastC_transport ≠ some (s.phase.compEpoch + 1)) :
    TempTierFrame s (runQuery env q (setComposition s x y rho mmw p)) ∧
    (∀ k, (runQuery env Query.thermalCondQ
        (setComposition s x y rho mmw p)).molefracs k = max MIN_X (x k)) ∧
    (runQuery env Query.thermalCondQ
        (setComposition s x y rho mmw p)).lastC_transport
      = some (s.phase.compEpoch + 1) := by
  have hframe1 : TempTierFrame s (setComposition s x y rho mmw p) :=
    ⟨rfl, rfl, rfl, rfl, rfl, rfl, rfl, rfl, rfl⟩
  have hq : CFrame (setComposition s x y rho mmw p)
      (runQuery env q (setComposition s x y rho mmw p)) :=
    query_CFrame env (setComposition s x y rho mmw p) q hv hd hth
  refine ⟨TempTierFrame_trans hframe1 (CFrame_tempTier hq), ?_, ?_⟩
  · intro k
    show ((thermalConductivityRun env (setComposition s x y rho mmw p)).2).molefracs k
        = max MIN_X (x k)
    rw [thermalConductivityRun_snd, solveL_molefracs]
    show (updateTransport_C env
        (updateThermal_T env (setComposition s x y rho mmw p))).molefracs k
      = max MIN_X (x k)
    rw [updateThermal_T_skip env (setComposition s x y rho mmw p) hth]
    unfold updateTransport_C
    have hc2 : ¬ ((setComposition s x y rho mmw p).lastC_transport
        = some (setComposition s x y rho mmw p).phase.compEpoch) := hc
    rw [if_neg hc2]
    rfl
  · show ((thermalConductivityRun env (setComposition s x y rho mmw p)).2).lastC_transport
        = some (s.phase.compEpoch + 1)
    rw [thermalConductivityRun_snd, solveL_lastC]
    show (updateTransport_C env
        (updateThermal_T env (setComposition s x y rho mmw p))).lastC_transport
      = some (s.phase.compEpoch + 1)
    rw [updateThermal_T_skip env (setComposition s x y rho mmw p) hth,
      updateTransport_C_lastC]
    rfl

theorem claim_C7_witness :
    TempTierFrame sSyncedA (runQuery envA Query.viscosityQ
      (setComposition sSyncedA (fun _ => 1/2) (fun _ => 1/2) 2 2 2)) ∧
    (runQuery envA Query.thermalCondQ
        (setComposition sSyncedA (fun _ => 1/2) (fun _ => 1/2) 2 2 2)).molefracs 0
      = max MIN_X (1/2) ∧
    (runQuery envA Query.thermalCondQ
        (setComposition sSyncedA (fun _ => 1/2) (fun _ => 1/2) 2 2 2)).lastC_transport
      = some (sSyncedA.phase.compEpoch + 1) := by
  have h := claim_C7 envA sSyncedA (fun _ => 1/2) (fun _ => 1/2) 2 2 2
    Query.viscosityQ (by decide) (by decide) (by decide) (by decide)
  exact ⟨h.1, h.2.1 0, h.2.2⟩

/-- Claim C10: after a query that triggers the thermal-tier temperature
update (thermalConductivity here, from a state whose temperature-tier
updaters are all stale), the diagonal entries of the cached binary
diffusion matrix are overwritten with the self-diffusion estimate
1.2 R T eta_k Astar(k,k) / M_k, so a subsequent getBinaryDiffCoeffs call
at the same temperature returns, for every species k, a diagonal entry
equal to that estimate divided by pressure, while off-diagonal entries
remain the polynomial-fit values divided by pressure. -/
theorem claim_C10 (env : TransportEnv) (s : TState)
    (h3 : s.lastT_diff ≠ some s.phase.tempEpoch)
    (h4 : s.lastT_thermal ≠ some s.phase.tempEpoch) :
    ∀ k ∈ Finset.range env.nsp,
      ((thermalConductivityRun env s).2).bdiff k k
        = 6/5 * env.gasConstant * ((thermalConductivityRun env s).2).temp
            * ((thermalConductivityRun env s).2).visc k
            * ((thermalConductivityRun env s).2).astar k k / env.mw k ∧
      (getBinaryDiffCoeffsRun env ((thermalConductivityRun env s).2)).1 k k
        = 1 / pressure_ig ((thermalConductivityRun env s).2)
            * ((thermalConductivityRun env s).2).bdiff k k ∧
      ∀ j ∈ Finset.range env.nsp, j ≠ k →
        (getBinaryDiffCoeffsRun env ((thermalConductivityRun env s).2)).1 k j
          = 1 / pressure_ig ((thermalConductivityRun env s).2)
              * bdiffFitVal env ((thermalConductivityRun env s).2) k j := by
  intro k hk
  rw [Finset.mem_range] at hk
  have huT : updateThermal_T env s
      = { _update_thermal_T env s with lastT_thermal := some s.phase.tempEpoch } := by
    unfold updateThermal_T
    rw [if_neg h4]
  have hsvD : ¬ ((updateSpeciesViscosities_T env s).lastT_diff
      = some (updateSpeciesViscosities_T env s).phase.tempEpoch) := by
    rw [updateSpeciesViscosities_T_lastT_diff, updateSpeciesViscosities_T_phase]
    exact h3
  have huD : updateDiff_T env (updateSpeciesViscosities_T env s)
      = { _update_diff_T env (updateSpeciesViscosities_T env s) with
          lastT_diff := some (updateSpeciesViscosities_T env s).phase.tempEpoch } := by
    unfold updateDiff_T
    rw [if_neg hsvD]
  have hcf : CFrame (updateThermal_T env s) ((thermalConductivityRun env s).2) := by
    rw [thermalConductivityRun_snd]
    exact CFrame_trans (updateTransport_C_CFrame env (updateThermal_T env s))
      (solveL_snd_CFrame env s)
  obtain ⟨hph, htm, hlg, hkb, hsq, ht32, hskb, hpv, hvs, hphi, hbd, hom, has,
    hbs, hcs, hrr, hci, hl1, hl2, hl3, hl4, hl5⟩ := hcf
  have hdiag : ((thermalConductivityRun env s).2).bdiff k k
      = 6/5 * env.gasConstant * ((thermalConductivityRun env s).2).temp
          * ((thermalConductivityRun env s).2).visc k
          * ((thermalConductivityRun env s).2).astar k k / env.mw k := by
    rw [hbd, htm, hvs, has, huT]
    dsimp only [_update_thermal_T]
    rw [if_pos ⟨hk, rfl⟩]
  have hsync : ((thermalConductivityRun env s).2).lastT_diff
      = some ((thermalConductivityRun env s).2).phase.tempEpoch := by
    rw [hl4, hph, updateThermal_T_phase, huT]
    dsimp only [_update_thermal_T]
    rw [updateDiff_T_lastT_diff, updateSpeciesViscosities_T_phase]
  refine ⟨hdiag, ?_, ?_⟩
  · unfold getBinaryDiffCoeffsRun
    dsimp only
    rw [updateDiff_T_skip env _ hsync, if_pos ⟨hk, hk⟩]
  · intro j hj hjk
    rw [Finset.mem_range] at hj
    unfold getBinaryDiffCoeffsRun
    dsimp only
    rw [updateDiff_T_skip env _ hsync, if_pos ⟨hk, hj⟩]
    have hoff : ((thermalConductivityRun env s).2).bdiff k j
        = bdiffFitVal env ((thermalConductivityRun env s).2) k j := by
      have hfit : ((thermalConductivityRun env s).2).bdiff k j
          = bdiffFitVal env
              (updateTransport_T env (updateSpeciesViscosities_T env s)) k j := by
        rw [hbd, huT]
        dsimp only [_update_thermal_T]
        rw [if_neg (fun hc => hjk hc.2.symm), huD]
        dsimp only [_update_diff_T]
        rw [if_pos ⟨hk, hj⟩]
      rw [hfit]
      refine bdiffFitVal_congr env ?_ ?_ ?_ k j
      · rw [hpv, huT]
        dsimp only [_update_thermal_T]
        rw [huD]
        rfl
      · rw [htm, huT]
        dsimp only [_update_thermal_T]
        rw [huD]
        rfl
      · rw [hsq, huT]
        dsimp only [_update_thermal_T]
        rw [huD]
        rfl
    rw [hoff]

theorem claim_C10_witness :
    ((thermalConductivityRun envA (initState envA phaseA)).2).bdiff 0 0
      = 6/5 * envA.gasConstant
          * ((thermalConductivityRun envA (initState envA phaseA)).2).temp
          * ((thermalConductivityRun envA (initState envA phaseA)).2).visc 0
          * ((thermalConductivityRun envA (initState envA phaseA)).2).astar 0 0
          / envA.mw 0 ∧
    (getBinaryDiffCoeffsRun envA
        ((thermalConductivityRun envA (initState envA phaseA)).2)).1 0 0
      = 1 / pressure_ig ((thermalConductivityRun envA (initState envA phaseA)).2)
          * ((thermalConductivityRun envA (initState envA phaseA)).2).bdiff 0 0 ∧
    (getBinaryDiffCoeffsRun envA
        ((thermalConductivityRun envA (initState envA phaseA)).2)).1 0 1
      = 1 / pressure_ig ((thermalConductivityRun envA (initState envA phaseA)).2)
          * bdiffFitVal envA
              ((thermalConductivityRun envA (initState envA phaseA)).2) 0 1 := by
  have h := claim_C10 envA (initState envA phaseA)
    (by decide) (by decide) 0 (by decide)
  exact ⟨h.1, h.2.1, h.2.2 1 (by decide) (by decide)⟩

theorem claim_C9_amended_witness :
    (thermalConductivityRun envSing (initState envSing phaseA)).1
      = Except.error (CtError.canteraError "MultiTransport::solveLMatrixEquation"
          "error in solving L matrix.") ∧
    (getSpeciesFluxesRun envSing (initState envSing phaseA) 1 2
        (fun _ => 0) gradXC2).1
      = Except.error (CtError.canteraError "MultiTransport::getSpeciesFluxes"
          "Error in DGETRF") ∧
    (getMultiDiffCoeffsRun envSing (initState envSing phaseA)).1
      = Except.error (CtError.processExit 1) :=
  ⟨(claim_C9_amended envSing (initState envSing phaseA) (initState envSing phaseA)
      (initState envSing phaseA) 1 2 (fun _ => 0) gradXC2).1 rfl rfl,
   (claim_C9_amended envSing (initState envSing phaseA) (initState envSing phaseA)
      (initState envSing phaseA) 1 2 (fun _ => 0) gradXC2).2.1 (by decide) rfl,
   (claim_C9_amended envSing (initState envSing phaseA) (initState envSing phaseA)
      (initState envSing phaseA) 1 2 (fun _ => 0) gradXC2).2.2 rfl⟩

end Cantera
